import Mathlib

/-!
Verification of the mcp-css-first suggestion engine.

This file gives a shallow embedding, in Lean 4, of the TypeScript suggestion
engine of the repository (packages/core/src/suggestions.ts,
packages/core/src/features/utils.ts, the logical-units preference module and
src/services/css/mdnClient.ts), and proves or refutes the frozen claims about
it.

Modelling conventions:
* JavaScript strings are lists of characters (`Str := List Char`);
  `String.prototype.includes` is the decidable infix relation,
  `toLowerCase` is `Char.toLower` mapped over the list (all compared
  literals are ASCII), `trim` drops whitespace at both ends.
* Regular expressions appearing in the sources are alternations of string
  literals (for the intent tables) or are implemented operationally
  (for the MDN browser-support parser), matching JavaScript's
  leftmost-match, greedy/lazy semantics on the concrete patterns involved.
* `Array.prototype.sort` (ES2019+) is a stable sort by the comparator's
  key; every stable sort by a total preorder computes the same list, so it
  is modelled by `List.insertionSort` with the relation
  `fun a b => key b ≤ key a` (descending, ties keep original order).
* `[...new Set(l)]` keeps the first occurrence of each element.
* Asynchronous network calls are modelled as explicit oracle functions
  (`none` = network/HTTP failure); the mutable MDN cache and `Date.now()`
  are threaded explicitly as state.
* JavaScript numbers are `Nat` where only naturals occur (support
  percentages, scores in the feature search) and `ℚ` for the relevance
  score, which multiplies by `1 + confidence` with `confidence` a ratio.
-/

namespace CssFirst

set_option maxRecDepth 1000000
set_option maxHeartbeats 2000000

/-- Character-list model of a JavaScript string. -/
abbrev Str := List Char

/-- Embed a Lean string literal as a `Str`. -/
def lit (s : String) : Str := s.data

/-- JavaScript `String.prototype.toLowerCase` (ASCII range). -/
def lowerStr (s : Str) : Str := s.map Char.toLower

/-- JavaScript `haystack.includes(needle)`. -/
def includesB (needle haystack : Str) : Bool := decide (List.IsInfix needle haystack)

/-- JavaScript `String.prototype.trim`. -/
def trimStr (s : Str) : Str :=
  ((s.dropWhile Char.isWhitespace).reverse.dropWhile Char.isWhitespace).reverse

/-- JavaScript `Array.prototype.join(' ')`. -/
def joinSp : List Str → Str
  | [] => []
  | [x] => x
  | x :: y :: tl => x ++ (' ' :: joinSp (y :: tl))

/-- Helper for `[...new Set(l)]`: keep the first occurrence of each element,
    carrying the set of already-seen elements. -/
def dedupFirstAux [DecidableEq α] (seen : List α) : List α → List α
  | [] => []
  | x :: xs =>
    if x ∈ seen then dedupFirstAux seen xs
    else x :: dedupFirstAux (x :: seen) xs

/-- JavaScript `[...new Set(l)]`: first occurrence of each element survives. -/
def dedupFirst [DecidableEq α] (l : List α) : List α := dedupFirstAux [] l

theorem dedupFirstAux_subset [DecidableEq α] (seen : List α) :
    ∀ l : List α, dedupFirstAux seen l ⊆ l := by
  intro l
  induction l generalizing seen with
  | nil => simp [dedupFirstAux]
  | cons x xs ih =>
    intro a ha
    simp only [dedupFirstAux] at ha
    by_cases hx : x ∈ seen
    · simp only [if_pos hx] at ha
      exact List.mem_cons_of_mem _ (ih seen ha)
    · simp only [if_neg hx, List.mem_cons] at ha
      rcases ha with rfl | ha
      · exact List.mem_cons_self _ _
      · exact List.mem_cons_of_mem _ (ih _ ha)

theorem dedupFirst_subset [DecidableEq α] (l : List α) : dedupFirst l ⊆ l :=
  dedupFirstAux_subset [] l

/-- A guarded keyword bundle: `if (condition) keywords.push(...bundle)`. -/
def gIf (c : Bool) (l : List α) : List α := if c then l else []

theorem mem_gIf {α : Type} {x : α} {c : Bool} {l : List α} (h : x ∈ gIf c l) :
    x ∈ l := by
  unfold gIf at h
  split at h
  · exact h
  · simp at h

/-- The comparator relation of a JavaScript descending stable sort keyed by
    `key`: `a` may stay before `b` when `key b ≤ key a` (ties keep order). -/
abbrev sortRel {α : Type} {κ : Type} [LinearOrder κ] (key : α → κ) : α → α → Prop :=
  fun a b => key b ≤ key a

instance sortRelDecidable {α κ : Type} [LinearOrder κ] (key : α → κ) :
    DecidableRel (sortRel key) :=
  fun a b => inferInstanceAs (Decidable (key b ≤ key a))

instance sortRelTotal {α κ : Type} [LinearOrder κ] (key : α → κ) :
    IsTotal α (sortRel key) :=
  ⟨fun a b => (le_total (key b) (key a)).elim Or.inl Or.inr⟩

instance sortRelTrans {α κ : Type} [LinearOrder κ] (key : α → κ) :
    IsTrans α (sortRel key) :=
  ⟨fun _ _ _ h₁ h₂ => le_trans h₂ h₁⟩

/-- JavaScript `array.sort((a, b) => key(b) - key(a))`: a stable sort,
    descending by `key`.  Stable sorting by a total preorder is unique, so
    insertion sort computes exactly the ES2019+ result. -/
def sortByDesc {α κ : Type} [LinearOrder κ] (key : α → κ) (l : List α) : List α :=
  List.insertionSort (sortRel key) l

theorem sortByDesc_perm {α κ : Type} [LinearOrder κ] (key : α → κ) (l : List α) :
    List.Perm (sortByDesc key l) l :=
  List.perm_insertionSort _ l

theorem sortByDesc_sorted {α κ : Type} [LinearOrder κ] (key : α → κ) (l : List α) :
    (sortByDesc key l).Pairwise (fun a b => key b ≤ key a) :=
  List.sorted_insertionSort _ l

theorem sortByDesc_mem {α κ : Type} [LinearOrder κ] (key : α → κ) {l : List α}
    {x : α} (h : x ∈ sortByDesc key l) : x ∈ l :=
  (List.mem_insertionSort _).mp h

/-- A list whose keys are pairwise tied (or already descending) is left
    unchanged by the stable descending sort. -/
theorem sortByDesc_of_pairwise {α κ : Type} [LinearOrder κ] (key : α → κ)
    {l : List α} (h : l.Pairwise (fun a b => key b ≤ key a)) :
    sortByDesc key l = l :=
  List.Sorted.insertionSort_eq h

/-- Stability of the descending sort: a pair appearing in order in the input
    whose keys are non-increasing stays in that order in the output. -/
theorem sortByDesc_pair {α κ : Type} [LinearOrder κ] (key : α → κ)
    {l : List α} {a b : α} (hab : key b ≤ key a) (h : List.Sublist [a, b] l) :
    List.Sublist [a, b] (sortByDesc key l) :=
  List.pair_sublist_insertionSort hab h

/-- A prefix of `a ++ sep :: b` that does not contain `sep` is a prefix
    of `a`. -/
theorem prefix_of_prefix_append_sep {α : Type} {t a b : List α} {sep : α}
    (hsep : sep ∉ t) (h : List.IsPrefix t (a ++ sep :: b)) :
    List.IsPrefix t a := by
  induction a generalizing t with
  | nil =>
    cases t with
    | nil => exact ⟨[], rfl⟩
    | cons c t' =>
      rw [List.nil_append, List.cons_prefix_cons] at h
      exact absurd (h.1 ▸ List.mem_cons_self c t') hsep
  | cons x a' ih =>
    cases t with
    | nil => exact ⟨x :: a', rfl⟩
    | cons c t' =>
      rw [List.cons_append, List.cons_prefix_cons] at h
      rw [List.cons_prefix_cons]
      exact ⟨h.1, ih (fun hm => hsep (List.mem_cons_of_mem _ hm)) h.2⟩

/-- An infix of `a ++ sep :: b` that does not contain the separator lies
    entirely inside `a` or entirely inside `b`. -/
theorem infix_append_sep {α : Type} {t a b : List α} {sep : α}
    (hsep : sep ∉ t) (h : List.IsInfix t (a ++ sep :: b)) :
    List.IsInfix t a ∨ List.IsInfix t b := by
  induction a generalizing t with
  | nil =>
    rw [List.nil_append] at h
    rcases List.infix_cons_iff.mp h with hp | hi
    · cases t with
      | nil => exact Or.inl ⟨[], [], rfl⟩
      | cons c t' =>
        rw [List.cons_prefix_cons] at hp
        exact absurd (hp.1 ▸ List.mem_cons_self c t') hsep
    · exact Or.inr hi
  | cons x a' ih =>
    rw [List.cons_append] at h
    rcases List.infix_cons_iff.mp h with hp | hi
    · have : List.IsPrefix t (x :: a') := by
        have hp' : List.IsPrefix t ((x :: a') ++ sep :: b) := by
          rwa [List.cons_append]
        exact prefix_of_prefix_append_sep hsep hp'
      exact Or.inl ( List.IsPrefix.isInfix this)
    · rcases ih hsep hi with h1 | h2
      · exact Or.inl (List.infix_cons_iff.mpr (Or.inr h1))
      · exact Or.inr h2

/-- A nonempty separator-free word is an infix of `joinSp l` only if it is an
    infix of one of the joined parts. -/
theorem infix_joinSp {t : Str} (hsp : ' ' ∉ t) (hne : t ≠ []) :
    ∀ {l : List Str}, List.IsInfix t (joinSp l) → ∃ x ∈ l, List.IsInfix t x := by
  intro l
  induction l with
  | nil =>
    intro h
    simp only [joinSp] at h
    exact absurd (List.eq_nil_of_infix_nil h) hne
  | cons x tl ih =>
    intro h
    cases tl with
    | nil =>
      simp only [joinSp] at h
      exact ⟨x, List.mem_cons_self _ _, h⟩
    | cons y tl' =>
      simp only [joinSp] at h
      rcases infix_append_sep hsp h with h1 | h2
      · exact ⟨x, List.mem_cons_self _ _, h1⟩
      · rcases ih h2 with ⟨z, hz, hzi⟩
        exact ⟨z, List.mem_cons_of_mem _ hz, hzi⟩

theorem lowerStr_append (a b : Str) : lowerStr (a ++ b) = lowerStr a ++ lowerStr b :=
  List.map_append _ a b

/-- Lowercasing commutes with joining on spaces. -/
theorem lowerStr_joinSp : ∀ l : List Str, lowerStr (joinSp l) = joinSp (l.map lowerStr)
  | [] => rfl
  | [x] => rfl
  | x :: y :: tl => by
    have ih := lowerStr_joinSp (y :: tl)
    have hsp : Char.toLower ' ' = ' ' := rfl
    simp only [joinSp, lowerStr, List.map_append, List.map_cons] at ih ⊢
    rw [hsp, ih]

/-! ## Data model (packages/core/src/types.ts) -/

/-- The five-point support level of types.ts. -/
inductive SupportLevel
  | excellent
  | good
  | moderate
  | limited
  | experimental
deriving DecidableEq

/-- The `approach` argument of the suggestion entry point. -/
inductive Approach
  | modern
  | compatible
  | progressive
deriving DecidableEq

/-- The four Baseline values (type `BaselinePreference` in suggestions.ts). -/
inductive BaselinePreference
  | widelyAvailable
  | newlyAvailable
  | limitedAvailability
  | experimental
deriving DecidableEq

/-- The `CSSFeatureCategory` enum of types.ts. -/
inductive CSSFeatureCategory
  | layout
  | animation
  | visual
  | typography
  | responsive
  | interaction
  | accessibility
  | logical
  | positioning
  | display
  | selectors
  | html
deriving DecidableEq

/-- The `CSSFeature` interface of types.ts. -/
structure CSSFeature where
  name : Str
  category : CSSFeatureCategory
  properties : List Str
  description : Str
  support_level : SupportLevel
  mdn_url : Str
deriving DecidableEq

/-- The nested `browser_support` object of `CSSPropertySuggestion`. -/
structure BrowserSupportSummary where
  overall_support : Nat
  modern_browsers : Bool
  legacy_support : Str
deriving DecidableEq

/-- The `CSSPropertySuggestion` interface of types.ts.  The field `synText`
    embeds the interface's `syntax` string.  `relevanceScore` is the untyped
    ranking score attached by the intelligent-ranking path
    (`(suggestion as any).relevanceScore`); `none` models the field being
    absent (fallback/legacy suggestions), which the relevance sort treats
    as `0` via `|| 0`. -/
structure CSSPropertySuggestion where
  property : Str
  description : Str
  synText : Str
  browser_support : BrowserSupportSummary
  use_cases : List Str
  mdn_url : Str
  support_level : SupportLevel
  baseline : Str
  relevanceScore : Option ℚ
deriving DecidableEq

/-! ## Feature registry and keyword search
(packages/core/src/features/utils.ts)

The registry `CSS_FEATURES` is the spread of thirteen static feature
modules; several of those modules are not part of the source snapshot, so
the registry is kept as an explicit parameter.  `values` is
`Object.values(CSS_FEATURES)` in spread order; `carousel` is the list
returned by `getCarouselFeatures()` (the four fixed ids
css-carousel / scroll-snap / flexbox / transitions, whose defining modules
are also outside the snapshot). -/

structure FeatureRegistry where
  values : List CSSFeature
  carousel : List CSSFeature

/-- The joined keyword text `keywords.join(' ').toLowerCase()` that
    `getSemanticScore` matches against. -/
def semKeywordText (keywords : List Str) : Str := lowerStr (joinSp keywords)

/-- `getSemanticScore` of features/utils.ts: fixed co-occurrence bonuses.
    Feature-name tests (`feature.name.includes(...)`) are case-sensitive in
    the source and are embedded as such. -/
def getSemanticScore (keywords : List Str) (feature : CSSFeature) : Nat :=
  let keywordText := semKeywordText keywords
  let kw (s : String) : Bool := includesB (lit s) keywordText
  let nameHas (s : String) : Bool := includesB (lit s) feature.name
  let propHas (s : String) : Bool := feature.properties.contains (lit s)
  -- Mobile height patterns
  (gNat (kw "mobile" && kw "height")
    (gNat (nameHas "Mobile Viewport Heights" || propHas "dvh" || propHas "svh") 200))
  -- Header positioning patterns
  + (gNat (kw "header" && (kw "sticky" || kw "fixed"))
    (gNat (nameHas "Positioning" || propHas "sticky" || propHas "fixed") 150))
  -- Full height patterns
  + (gNat (kw "full" && kw "height")
    (gNat (propHas "height" || propHas "100vh" || propHas "dvh" || propHas "block-size") 100))
  -- Carousel patterns: prioritize the modern CSS-only carousel
  + (gNat (kw "carousel" || kw "slider")
    (if nameHas "Modern CSS Carousel" || propHas "::scroll-marker" ||
        propHas "::scroll-button()" || propHas ":target-current" then 200
     else if nameHas "Carousel" || propHas "scroll-snap-type" then 150
     else 0))
  -- Theme patterns
  + (gNat (kw "theme" || kw "dark" || kw "light")
    (gNat (nameHas "Light-Dark" || propHas "light-dark" || propHas "color-scheme") 150))
  -- View Transitions patterns
  + (gNat (kw "view transition" || kw "view-transition" || kw "page transition" ||
           kw "state change" || kw "morph" || kw "crossfade" || kw "scoped transition")
    (gNat (nameHas "View Transitions" || propHas "view-transition-name" ||
           propHas "::view-transition") 200))
  -- Form validation patterns
  + (gNat (kw "form" && kw "valid")
    (gNat (nameHas "Form Validation" || propHas ":user-valid" || propHas ":invalid") 150))
where
  /-- Guarded score contribution: `if (condition) score += n`. -/
  gNat (c : Bool) (n : Nat) : Nat := if c then n else 0

/-- The searchable text `${name} ${description} ${properties.join(' ')}`
    lowercased, built once per feature by `searchFeatures`. -/
def featureText (feature : CSSFeature) : Str :=
  lowerStr (feature.name ++ (' ' :: feature.description) ++ (' ' :: joinSp feature.properties))

/-- One scoring tier for a (feature, keyword) pair: the first matching
    branch of the `if/else if` cascade in `searchFeatures` wins. -/
def keywordTier (feature : CSSFeature) (keyword : Str) : Nat :=
  let lowerKeyword := lowerStr keyword
  if feature.properties.any (fun prop => lowerStr prop == lowerKeyword) then 100
  else if feature.properties.any (fun prop => includesB lowerKeyword (lowerStr prop)) then 50
  else if includesB lowerKeyword (lowerStr feature.name) then 30
  else if includesB lowerKeyword (lowerStr feature.description) then 20
  else if includesB lowerKeyword (featureText feature) then 10
  else 0

/-- The total score of a feature in `searchFeatures`: the keyword loop
    accumulates one tier per keyword, then the semantic bonus is added. -/
def featureTotalScore (keywords : List Str) (feature : CSSFeature) : Nat :=
  keywords.foldl (fun score keyword => score + keywordTier feature keyword) 0
    + getSemanticScore keywords feature

/-- The `results` array of `searchFeatures`: features scored in registry
    order, zero-score features excluded. -/
def scoredFeatures (registry : List CSSFeature) (keywords : List Str) :
    List (CSSFeature × Nat) :=
  registry.filterMap (fun feature =>
    if 0 < featureTotalScore keywords feature then
      some (feature, featureTotalScore keywords feature)
    else none)

/-- `searchFeatures` of features/utils.ts: score every registry feature,
    keep positive scores, stable-sort descending by score, take the top 10
    and return the features. -/
def searchFeatures (registry : List CSSFeature) (keywords : List Str) :
    List CSSFeature :=
  (((sortByDesc (fun r => r.2) (scoredFeatures registry keywords)).take 10).map
    (fun r => r.1))

/-! ## Intent analysis (packages/core/src/suggestions.ts, contextAnalyzer.ts)

Every regex in `INTENT_PATTERNS` is a case-insensitive alternation of
string literals, so `pattern.test(description)` holds exactly when one of
the literals occurs in the lowercased description. -/

/-- One intent pattern: the alternation literals of one
    `/(?:a|b|…)/i` regex. -/
def PatternAlts := List Str

/-- `p.test(description)` for an alternation pattern, given the lowercased
    description. -/
def testPattern (alts : PatternAlts) (lowerDesc : Str) : Bool :=
  alts.any (fun a => includesB a lowerDesc)

/-- One entry of `INTENT_PATTERNS`: label, regex list, mapped categories. -/
structure IntentEntry where
  label : Str
  patterns : List PatternAlts
  categories : List CSSFeatureCategory

/-- The `INTENT_PATTERNS` table of suggestions.ts. -/
def INTENT_PATTERNS : List IntentEntry :=
  [ { label := lit "layout"
    , patterns :=
        [ [lit "arrange", lit "organize", lit "position", lit "place", lit "layout"]
        , [lit "center", lit "align", lit "justify", lit "distribute"]
        , [lit "column", lit "row", lit "grid", lit "flex"]
        , [lit "beside", lit "above", lit "below", lit "next to", lit "in a row"] ]
    , categories := [.layout] }
  , { label := lit "animation"
    , patterns :=
        [ [lit "animate", lit "transition", lit "move", lit "slide", lit "fade", lit "hover"]
        , [lit "smooth", lit "ease", lit "duration", lit "timing"]
        , [lit "transform", lit "translate", lit "rotate", lit "scale"] ]
    , categories := [.animation] }
  , { label := lit "spacing"
    , patterns :=
        [ [lit "space", lit "spacing", lit "gap", lit "margin", lit "padding"]
        , [lit "between", lit "around", lit "inside", lit "outside"]
        , [lit "tight", lit "loose", lit "compressed", lit "expanded"] ]
    , categories := [.logical] }
  , { label := lit "responsive"
    , patterns :=
        [ [lit "responsive", lit "mobile", lit "tablet", lit "desktop", lit "breakpoint"]
        , [lit "small screen", lit "large screen", lit "different sizes"]
        , [lit "adapt", lit "resize", lit "scale", lit "fit"] ]
    , categories := [.responsive] }
  , { label := lit "visual"
    , patterns :=
        [ [lit "color", lit "background", lit "border", lit "shadow", lit "gradient"]
        , [lit "appearance", lit "style", lit "design", lit "look"]
        , [lit "opacity", lit "transparency", lit "blur"] ]
    , categories := [.visual] }
  , { label := lit "interaction"
    , patterns :=
        [ [lit "click", lit "hover", lit "focus", lit "active", lit "disabled"]
        , [lit "interactive", lit "button", lit "link", lit "form"]
        , [lit "state", lit "feedback", lit "response"] ]
    , categories := [.interaction] }
  , { label := lit "selectors"
    , patterns :=
        [ [lit "selector", lit "pseudo-class", lit "pseudo-element", lit "specificity"]
        , [lit "attribute selector", lit "structural selector", lit "nth-child"]
        , [lit ":is(", lit ":where(", lit ":not(", lit ":has(", lit ":focus-visible",
           lit ":focus-within"] ]
    , categories := [.selectors] }
  , { label := lit "html"
    , patterns :=
        [ [lit "commandfor", lit "command", lit "invoker"]
        , [lit "dialog", lit "modal", lit "popover"]
        , [lit "popovertarget", lit "popovertargetaction"] ]
    , categories := [.html] } ]

/-- The `FRAMEWORK_INDICATORS` table of suggestions.ts.  Indicators are
    matched against the lowercased description, so mixed-case indicators
    such as `useState` can never match — kept verbatim. -/
def FRAMEWORK_INDICATORS : List (Str × List Str) :=
  [ (lit "react", [lit "component", lit "jsx", lit "react", lit "useState", lit "useEffect"])
  , (lit "vue", [lit "template", lit "v-if", lit "v-for", lit "vue", lit "composition"])
  , (lit "angular", [lit "angular", lit "component", lit "directive", lit "ngIf", lit "ngFor"])
  , (lit "tailwind", [lit "tailwind", lit "tw-", lit "class=", lit "className="])
  , (lit "bootstrap", [lit "bootstrap", lit "btn-", lit "col-", lit "row", lit "container"]) ]

/-- The part of `ProjectContext` (contextAnalyzer.ts) consumed by the
    suggestion pipeline.  `buildTool`, `targetBrowsers` and `constraints`
    are also detected by `analyzeProjectContext` but flow only into the
    returned context object, never into candidate selection or scoring, and
    are omitted. -/
structure ProjectContext where
  framework : Option Str
  cssFramework : Option Str
deriving DecidableEq

/-- `analyzeProjectContext` of contextAnalyzer.ts (framework and
    css-framework detection chains). -/
def analyzeProjectContext (contextString : Option Str) : ProjectContext :=
  match contextString with
  | none => { framework := none, cssFramework := none }
  | some ctx =>
    let lowerContext := lowerStr ctx
    let has (s : String) : Bool := includesB (lit s) lowerContext
    { framework :=
        if has "react" || has "jsx" then some (lit "react")
        else if has "vue" then some (lit "vue")
        else if has "angular" then some (lit "angular")
        else if has "svelte" then some (lit "svelte")
        else none
    , cssFramework :=
        if has "tailwind" then some (lit "tailwind")
        else if has "bootstrap" then some (lit "bootstrap")
        else if has "material" || has "mui" then some (lit "material-ui")
        else if has "chakra" then some (lit "chakra-ui")
        else none }

/-- The fixed list of direct CSS property keywords scanned first by
    `extractLegacyKeywords`. -/
def cssPropertyTriggers : List Str :=
  [lit "height", lit "width", lit "position", lit "display", lit "flex", lit "grid",
   lit "margin", lit "padding", lit "border", lit "background", lit "color", lit "font",
   lit "text", lit "transform", lit "transition", lit "animation"]

/-- The keyword list pushed by `extractLegacyKeywords` of suggestions.ts:
    one chunk per `if (condition) keywords.push(...bundle)` site, flattened
    in source order (nested pushes appear as nested appends). -/
def legacyKeywordChunks (description : Str) : List Str :=
  let ld := lowerStr description
  let has (s : String) : Bool := includesB (lit s) ld
  List.flatten
    [ cssPropertyTriggers.filter (fun prop => includesB prop ld)
    , gIf (has "full" && has "height")
        [lit "height", lit "100vh", lit "100dvh", lit "dvh", lit "svh", lit "lvh",
         lit "block-size", lit "min-height"]
    , gIf (has "mobile" || has "phone")
        ([lit "dvh", lit "svh", lit "lvh", lit "mobile-viewport", lit "browser-ui",
          lit "@media"]
         ++ gIf (has "height" || has "screen" || has "full")
             [lit "100dvh", lit "height", lit "block-size", lit "viewport-height"])
    , gIf (has "header")
        ([lit "header"]
         ++ gIf (has "stick" || has "fix") [lit "sticky", lit "fixed", lit "position"]
         ++ gIf (has "full" || has "height")
             [lit "height", lit "min-height", lit "dvh", lit "100dvh"])
    , gIf (has "center" || has "align")
        [lit "center", lit "align", lit "justify-content", lit "align-items",
         lit "flex", lit "grid"]
    , gIf (has "carousel" || has "slider" || has "gallery")
        [lit "scroll-snap-type", lit "overflow-inline", lit "scroll-behavior",
         lit "::scroll-marker", lit "::scroll-button", lit "flex"]
    , gIf (has "theme" || has "dark" || has "light")
        [lit "light-dark", lit "color-scheme", lit "prefers-color-scheme", lit "@media"]
    , gIf (has "form")
        ([lit "form"]
         ++ gIf (has "valid" || has "error")
             [lit ":user-valid", lit ":user-invalid", lit ":invalid", lit ":valid"])
    , gIf (has "modal" || has "dialog" || has "popup")
        [lit "dialog", lit ":target", lit "position", lit "fixed", lit "backdrop-filter"]
    , gIf (has "nav" || has "menu")
        ([lit "nav", lit "menu"]
         ++ gIf (has "hamburger" || has "mobile")
             [lit ":checked", lit "position", lit "transform"])
    , gIf (has "animate" || has "transition")
        ([lit "animation", lit "transition", lit "@keyframes"]
         ++ gIf (has "scroll") [lit "scroll-timeline", lit "animation-timeline"])
    , gIf (has "responsive" || has "breakpoint")
        [lit "@media", lit "container", lit "clamp", lit "min", lit "max"]
    , gIf (has "always") [lit "min-height", lit "100%", lit "vh", lit "dvh"]
    , gIf (has "section") [lit "section", lit "height", lit "min-height"]
    , gIf (has "device") [lit "dvh", lit "svh", lit "@media", lit "viewport"] ]

/-- `extractLegacyKeywords` of suggestions.ts: the pushed keyword list,
    de-duplicated keeping first occurrences (`[...new Set(keywords)]`). -/
def extractLegacyKeywords (description : Str) : List Str :=
  dedupFirst (legacyKeywordChunks description)

/-- The analysis object produced by `analyzeTaskIntent`.  The
    `recommendations` list (static advice prose) is returned to callers but
    never consumed by the suggestion pipeline and is omitted. -/
structure TaskAnalysis where
  keywords : List Str
  intent : List Str
  confidence : ℚ
  suggestedCategories : List CSSFeatureCategory
  frameworkHints : List Str
  contextAnalysis : ProjectContext

/-- Per-label match counts of the intent loop: (label, categories,
    number of matching patterns). -/
def intentMatches (lowerDesc : Str) : List (IntentEntry × Nat) :=
  INTENT_PATTERNS.map (fun entry =>
    (entry, (entry.patterns.filter (fun p => testPattern p lowerDesc)).length))

/-- `analyzeTaskIntent` of suggestions.ts. -/
def analyzeTaskIntent (description : Str) (projectContext : Option Str) : TaskAnalysis :=
  let contextAnalysis := analyzeProjectContext projectContext
  let ld := lowerStr description
  let perLabel := intentMatches ld
  let totalPatterns := (INTENT_PATTERNS.map (fun e => e.patterns.length)).sum
  let totalMatches := (perLabel.map (fun x => x.2)).sum
  let active := perLabel.filter (fun x => 0 < x.2)
  let intent := active.map (fun x => x.1.label)
  let suggestedCategories := active.flatMap (fun x => x.1.categories)
  let frameworkHints :=
    contextAnalysis.framework.toList ++ contextAnalysis.cssFramework.toList
    ++ FRAMEWORK_INDICATORS.filterMap (fun fw =>
        if fw.2.any (fun indicator => includesB indicator ld) then some fw.1 else none)
  let keywords := extractLegacyKeywords description
  let confidence : ℚ :=
    if 0 < totalPatterns then (totalMatches : ℚ) / (totalPatterns : ℚ) else 0
  { keywords := dedupFirst keywords
  , intent := dedupFirst intent
  , confidence := confidence
  , suggestedCategories := dedupFirst suggestedCategories
  , frameworkHints := dedupFirst frameworkHints
  , contextAnalysis := contextAnalysis }

/-! ## Logical-preference reranker
(packages/core/src/logicalUnitsPreference.ts) -/

/-- `calculateLogicalScore`: per-token logical-affinity score, summed over
    the candidate's listed properties. -/
def calculateLogicalScore (properties : List Str) : Nat :=
  properties.foldl (fun score prop =>
    score +
      (if [lit "dvi", lit "dvb", lit "svi", lit "svb", lit "lvi", lit "lvb"].contains prop
       then 10
       else if [lit "cqi", lit "cqb"].contains prop then 8
       else if includesB (lit "inline") prop || includesB (lit "block") prop then 6
       else if [lit "dvw", lit "dvh", lit "svw", lit "svh", lit "lvw", lit "lvh"].contains prop
       then 3
       else if [lit "cqw", lit "cqh"].contains prop then 2
       else if [lit "width", lit "height", lit "left", lit "right", lit "top",
                lit "bottom"].contains prop then 1
       else 0)) 0

/-- `rankByLogicalPreference`: stable sort descending by the logical score
    of `a.properties || []`.  The accessor `props` models the untyped field
    read: candidates that carry a `properties` array supply it, while
    `CSSPropertySuggestion` values (which have `property`, singular, but no
    `properties` field) make the read yield `undefined || [] = []`. -/
def rankByLogicalPreference {α : Type} (props : α → List Str) (suggestions : List α) :
    List α :=
  sortByDesc (fun a => calculateLogicalScore (props a)) suggestions

/-! ## Support/baseline helpers and the suggestion pipeline
(packages/core/src/suggestions.ts)

The pipeline's MDN client (packages/core/src/mdnClient.ts) is not part of
the source snapshot; per spec §4.3/§6 it is an external, possibly failing
collaborator.  Its three reads are modelled as oracle functions:
`browserSupport` returns the fields of `fetchBrowserSupportFromMDN` that
the pipeline consumes, `mdnBaseline` models `fetchBaselineStatusFromMDN`
(`none` = no live classification), and `mdnSynText` models the truthiness
of `fetchMDNData(...).syntax` (`none` = absent/empty). -/

/-- The fields of the resolver's record read by the pipeline. -/
structure BrowserSupportView where
  overall_support : Nat
  is_default : Bool
deriving DecidableEq

/-- Oracle bundle for the pipeline's external MDN collaborator. -/
structure SuggestionEnv where
  browserSupport : Str → BrowserSupportView
  mdnBaseline : Str → Option BaselinePreference
  mdnSynText : Str → Option Str

/-- `normalizeBaselinePreference` of suggestions.ts.  A `none`/empty input
    is falsy (`if (!value) return undefined`). -/
def normalizeBaselinePreference : Option Str → Option BaselinePreference
  | none => none
  | some value =>
    if value.isEmpty then none
    else
      let normalized := lowerStr (trimStr value)
      if [lit "widely available", lit "widely-available", lit "wide"].contains normalized then
        some .widelyAvailable
      else if [lit "newly available", lit "newly-available", lit "new"].contains normalized then
        some .newlyAvailable
      else if [lit "limited availability", lit "limited-availability",
               lit "limited"].contains normalized then
        some .limitedAvailability
      else if [lit "experimental", lit "experiental", lit "exp"].contains normalized then
        some .experimental
      else none

/-- `getBaselineFromSupportLevel` of suggestions.ts. -/
def getBaselineFromSupportLevel : SupportLevel → BaselinePreference
  | .limited => .limitedAvailability
  | .experimental => .experimental
  | .moderate => .newlyAvailable
  | _ => .widelyAvailable

/-- `deriveSupportLevel` of suggestions.ts: the ≥95/≥85/≥70/≥50 thresholds. -/
def deriveSupportLevel (overallSupport : Nat) : SupportLevel :=
  if 95 ≤ overallSupport then .excellent
  else if 85 ≤ overallSupport then .good
  else if 70 ≤ overallSupport then .moderate
  else if 50 ≤ overallSupport then .limited
  else .experimental

/-- `getBaselineLabel` of suggestions.ts. -/
def getBaselineLabel : BaselinePreference → Str
  | .widelyAvailable => lit "**🟢 Widely Available**"
  | .newlyAvailable => lit "**🔵 Newly Available**"
  | .limitedAvailability => lit "**🟡 Limited Availability**"
  | .experimental => lit "**🟣 Experimental**"

/-- `shouldIncludeBaseline` of suggestions.ts: exact match, no filter when
    either side is absent. -/
def shouldIncludeBaseline (resolvedBaseline : Option BaselinePreference)
    (baseline : Option BaselinePreference) : Bool :=
  match baseline with
  | none => true
  | some b =>
    match resolvedBaseline with
    | none => true
    | some r => r == b

/-- `resolveBaselineForProperty` of suggestions.ts: prefer the live MDN
    baseline, otherwise derive from the support level. -/
def resolveBaselineForProperty (env : SuggestionEnv) (cssProperty : Str)
    (supportLevel : SupportLevel) : BaselinePreference :=
  (env.mdnBaseline cssProperty).getD (getBaselineFromSupportLevel supportLevel)

/-- `shouldIncludeBasedOnApproach` of suggestions.ts. -/
def shouldIncludeBasedOnApproach (supportLevel : SupportLevel)
    (approach : Approach) : Bool :=
  match approach with
  | .modern => [SupportLevel.excellent, .good, .experimental].contains supportLevel
  | .compatible => supportLevel == .excellent
  | .progressive => true

/-- `getFeatureSyntax` of suggestions.ts. -/
def getFeatureSyntax (featureName : Str) : Str := featureName ++ lit ": value;"

/-- `getFeatureUseCases` of suggestions.ts. -/
def getFeatureUseCases (_featureName : Str) : List Str :=
  [lit "General styling", lit "UI enhancement"]

/-- `calculateRelevanceScore` of suggestions.ts: sequential bonus
    accumulation, then the `(1 + confidence)` multiplier. -/
def calculateRelevanceScore (feature : CSSFeature) (analysis : TaskAnalysis)
    (supportLevel : SupportLevel) : ℚ :=
  let score : ℚ :=
    (if analysis.intent.contains (lit "layout") && feature.category == .layout then 10 else 0)
    + (if analysis.intent.contains (lit "animation") && feature.category == .animation
       then 10 else 0)
    + (if analysis.intent.contains (lit "spacing") && feature.category == .logical
       then 10 else 0)
    + (if analysis.intent.contains (lit "selectors") && feature.category == .selectors
       then 10 else 0)
    + (if analysis.intent.contains (lit "html") && feature.category == .html then 10 else 0)
    + (if supportLevel == .excellent then 5 else 0)
    + (if supportLevel == .good then 3 else 0)
    + (if analysis.frameworkHints.contains (lit "react")
          && feature.properties.contains (lit "flex") then 3 else 0)
    + (if analysis.frameworkHints.contains (lit "tailwind")
          && feature.properties.contains (lit "grid") then 3 else 0)
  score * (1 + analysis.confidence)

/-- The support level the pipeline derives for a feature's first property:
    the static `support_level` when the resolver record is a default,
    otherwise `deriveSupportLevel` of the live percentage. -/
def pipelineSupportLevel (env : SuggestionEnv) (feature : CSSFeature) : SupportLevel :=
  let browserSupport := env.browserSupport (feature.properties.headD (lit ""))
  if browserSupport.is_default then feature.support_level
  else deriveSupportLevel browserSupport.overall_support

/-- The `browser_support` sub-object built for every suggestion. -/
def buildBrowserSummary (browserSupport : BrowserSupportView) : BrowserSupportSummary :=
  { overall_support := browserSupport.overall_support
  , modern_browsers := decide (85 ≤ browserSupport.overall_support)
  , legacy_support :=
      if 70 ≤ browserSupport.overall_support then lit "good" else lit "limited" }

/-- One iteration of the main category loop of
    `searchWithIntelligentRanking`: resolve support and baseline for the
    feature's first property, apply the approach AND baseline filters, and
    build the suggestion with its relevance score. -/
def buildMainSuggestion (env : SuggestionEnv) (analysis : TaskAnalysis)
    (approach : Approach) (baselinePreference : Option BaselinePreference)
    (feature : CSSFeature) : Option CSSPropertySuggestion :=
  let prop := feature.properties.headD (lit "")
  let browserSupport := env.browserSupport prop
  let supportLevel := pipelineSupportLevel env feature
  let resolvedBaseline := resolveBaselineForProperty env prop supportLevel
  if shouldIncludeBasedOnApproach supportLevel approach
      && shouldIncludeBaseline (some resolvedBaseline) baselinePreference then
    some
      { property := prop
      , description := feature.description
      , synText := (env.mdnSynText prop).getD (getFeatureSyntax feature.name)
      , browser_support := buildBrowserSummary browserSupport
      , use_cases := getFeatureUseCases feature.name
      , mdn_url := feature.mdn_url
      , support_level := supportLevel
      , baseline := getBaselineLabel resolvedBaseline
      , relevanceScore := some (calculateRelevanceScore feature analysis supportLevel) }
  else none

/-- `createSuggestionFromFeature` of suggestions.ts, as used by the
    zero-candidate fallback loop: only the baseline filter is applied (no
    approach filter), the syntax comes from `getFeatureSyntax`, and no
    relevance score is attached. -/
def buildFallbackSuggestion (env : SuggestionEnv)
    (baselinePreference : Option BaselinePreference) (feature : CSSFeature) :
    Option CSSPropertySuggestion :=
  let prop := feature.properties.headD (lit "")
  let browserSupport := env.browserSupport prop
  let supportLevel := pipelineSupportLevel env feature
  let resolvedBaseline := resolveBaselineForProperty env prop supportLevel
  if shouldIncludeBaseline (some resolvedBaseline) baselinePreference then
    some
      { property := prop
      , description := feature.description
      , synText := getFeatureSyntax feature.name
      , browser_support := buildBrowserSummary browserSupport
      , use_cases := getFeatureUseCases feature.name
      , mdn_url := feature.mdn_url
      , support_level := supportLevel
      , baseline := getBaselineLabel resolvedBaseline
      , relevanceScore := none }
  else none

/-- One iteration of the two legacy loops of `searchLegacyKeywords`:
    approach AND baseline filters, `getFeatureSyntax` syntax, no relevance
    score. -/
def buildLegacySuggestion (env : SuggestionEnv) (approach : Approach)
    (baselinePreference : Option BaselinePreference) (feature : CSSFeature) :
    Option CSSPropertySuggestion :=
  let prop := feature.properties.headD (lit "")
  let browserSupport := env.browserSupport prop
  let supportLevel := pipelineSupportLevel env feature
  let resolvedBaseline := resolveBaselineForProperty env prop supportLevel
  if shouldIncludeBasedOnApproach supportLevel approach
      && shouldIncludeBaseline (some resolvedBaseline) baselinePreference then
    some
      { property := prop
      , description := feature.description
      , synText := getFeatureSyntax feature.name
      , browser_support := buildBrowserSummary browserSupport
      , use_cases := getFeatureUseCases feature.name
      , mdn_url := feature.mdn_url
      , support_level := supportLevel
      , baseline := getBaselineLabel resolvedBaseline
      , relevanceScore := none }
  else none

/-- `dedupeSuggestions` of suggestions.ts, with the `seen` set explicit. -/
def dedupeSuggestionsAux (seen : List Str) :
    List CSSPropertySuggestion → List CSSPropertySuggestion
  | [] => []
  | suggestion :: rest =>
    if suggestion.property ∈ seen then dedupeSuggestionsAux seen rest
    else suggestion :: dedupeSuggestionsAux (suggestion.property :: seen) rest

/-- `dedupeSuggestions` of suggestions.ts: keep the first suggestion for
    each property. -/
def dedupeSuggestions (suggestions : List CSSPropertySuggestion) :
    List CSSPropertySuggestion :=
  dedupeSuggestionsAux [] suggestions

/-- The main per-category loop of `searchWithIntelligentRanking`: for each
    suggested category the same keyword search is re-run (the category
    itself is `void`ed) and each returned feature is filtered and built. -/
def mainLoopSuggestions (env : SuggestionEnv) (registry : FeatureRegistry)
    (analysis : TaskAnalysis) (approach : Approach)
    (baselinePreference : Option BaselinePreference) : List CSSPropertySuggestion :=
  analysis.suggestedCategories.flatMap (fun _ =>
    (searchFeatures registry.values analysis.keywords).filterMap
      (buildMainSuggestion env analysis approach baselinePreference))

/-- `searchWithIntelligentRanking` of suggestions.ts: main category loop,
    zero-candidate fallback over the top 5 raw search results, logical
    pre-sort (over suggestion objects, which carry no `properties` field),
    stable relevance sort, dedupe, truncate. -/
def searchWithIntelligentRanking (env : SuggestionEnv) (registry : FeatureRegistry)
    (analysis : TaskAnalysis) (approach : Approach)
    (baselinePreference : Option BaselinePreference) (maxSuggestions : Nat) :
    List CSSPropertySuggestion :=
  let main := mainLoopSuggestions env registry analysis approach baselinePreference
  let suggestions :=
    if main.isEmpty then
      ((searchFeatures registry.values analysis.keywords).take 5).filterMap
        (buildFallbackSuggestion env baselinePreference)
    else main
  let logicallyRanked := rankByLogicalPreference (fun _ => []) suggestions
  let sorted := sortByDesc (fun s => s.relevanceScore.getD 0) logicallyRanked
  (dedupeSuggestions sorted).take maxSuggestions

/-- `searchLegacyKeywords` of suggestions.ts: carousel branch, then the
    general loop which skips features whose first property was already
    added, then dedupe and truncate. -/
def searchLegacyKeywords (env : SuggestionEnv) (registry : FeatureRegistry)
    (keywords : List Str) (approach : Approach)
    (baselinePreference : Option BaselinePreference) (maxSuggestions : Nat) :
    List CSSPropertySuggestion :=
  let carouselSuggestions :=
    if keywords.contains (lit "carousel") || keywords.contains (lit "slider") then
      registry.carousel.filterMap (buildLegacySuggestion env approach baselinePreference)
    else []
  let suggestions :=
    (searchFeatures registry.values keywords).foldl
      (fun acc feature =>
        if acc.any (fun s => s.property == feature.properties.headD (lit "")) then acc
        else
          match buildLegacySuggestion env approach baselinePreference feature with
          | some s => acc ++ [s]
          | none => acc)
      carouselSuggestions
  (dedupeSuggestions suggestions).take maxSuggestions

/-- `searchMDNForCSSProperties` of suggestions.ts — the public suggestion
    entry point.  `Sum.inr` is the legacy keyword-array form, `Sum.inl` the
    description-string form. -/
def searchMDNForCSSProperties (env : SuggestionEnv) (registry : FeatureRegistry)
    (description : Str ⊕ List Str) (approach : Approach)
    (projectContext : Option Str) (baselinePreference : Option Str)
    (maxSuggestions : Nat) : List CSSPropertySuggestion :=
  let normalizedBaseline := normalizeBaselinePreference baselinePreference
  match description with
  | .inr keywords =>
    searchLegacyKeywords env registry keywords approach normalizedBaseline maxSuggestions
  | .inl d =>
    searchWithIntelligentRanking env registry (analyzeTaskIntent d projectContext)
      approach normalizedBaseline maxSuggestions

/-- A JavaScript value passed as `description`: a string, an array, or any
    other runtime value (the TypeScript annotation is not enforced at
    runtime). -/
inductive JSDescription
  | str (s : Str)
  | strArr (l : List Str)
  | malformed

/-- Possible outcomes of calling the entry point from JavaScript: a
    resolved suggestion list, a rejection with a descriptive
    invalid-argument error (what spec §7 prescribes for malformed input),
    or an incidental runtime TypeError. -/
inductive JSCallResult
  | ok (suggestions : List CSSPropertySuggestion)
  | invalidArgument (message : Str)
  | typeError (message : Str)
deriving DecidableEq

/-- JavaScript dispatch semantics of `searchMDNForCSSProperties`: the only
    test performed on `description` is `Array.isArray`; there is no
    validation branch.  Every non-array value flows into the string path,
    where `analyzeTaskIntent` evaluates `description.toLowerCase()` (the
    framework-indicator scan), which raises a TypeError for a non-string
    value. -/
def searchMDNForCSSPropertiesJS (env : SuggestionEnv) (registry : FeatureRegistry)
    (description : JSDescription) (approach : Approach)
    (projectContext : Option Str) (baselinePreference : Option Str)
    (maxSuggestions : Nat) : JSCallResult :=
  match description with
  | .strArr l =>
    .ok (searchMDNForCSSProperties env registry (.inr l) approach projectContext
      baselinePreference maxSuggestions)
  | .str s =>
    .ok (searchMDNForCSSProperties env registry (.inl s) approach projectContext
      baselinePreference maxSuggestions)
  | .malformed => .typeError (lit "description.toLowerCase is not a function")

/-! ## MDN client: support resolver with cache and fallback
(src/services/css/mdnClient.ts)

The network fetch (`fetchMDNPageDirect`: HTTP GET of the MDN page plus the
non-2xx check) is modelled as an oracle `fetchOracle : Str → Option Str`
keyed by the normalized property id; `none` covers a network error or a
non-ok response, `some text` the fetched page text.  `Date.now()` is an
explicit `now : Nat` (milliseconds), and the module-level `mdnCache` Map is
threaded as an association list. -/

/-- `CACHE_TTL` of mdnClient.ts: one hour in milliseconds. -/
def CACHE_TTL : Nat := 1000 * 60 * 60

/-- `normalizePropertyForMDN` of mdnClient.ts: trim, truncate at the first
    `:` or `=` (re-trimming), strip one trailing `()`. -/
def normalizePropertyForMDN (cssProperty : Str) : Str :=
  let n := trimStr cssProperty
  let n := if n.contains ':' then trimStr (n.takeWhile (fun c => c ≠ ':')) else n
  let n := if n.contains '=' then trimStr (n.takeWhile (fun c => c ≠ '=')) else n
  if decide (List.IsSuffix (lit "()") n) then n.take (n.length - 2) else n

/-- The `browserSupport` object produced by `extractBrowserSupport`. -/
structure ExtractedSupport where
  overall_support : Nat
  modern_browsers : Bool
  legacy_support : Str
  is_default : Bool
deriving DecidableEq

/-- The parsed MDN data cached by `fetchMDNData`.  Of the fields built by
    `parseMDNResponse`, only `property` and `browserSupport` are ever read
    downstream (by `fetchBrowserSupportFromMDN`); the prose fields
    (description, syntax text, examples, related properties) are not
    observed by any claim and are omitted. -/
structure MDNData where
  property : Str
  browserSupport : ExtractedSupport
deriving DecidableEq

/-- One entry of the module-level `mdnCache` Map. -/
structure CacheEntry where
  data : MDNData
  timestamp : Nat
deriving DecidableEq

/-- The `mdnCache` Map, as an association list (`Map.get`/`Map.set`). -/
def MDNCache := List (Str × CacheEntry)

/-- `mdnCache.get(key)`. -/
def cacheGet (cache : MDNCache) (key : Str) : Option CacheEntry :=
  (cache.find? (fun e => e.1 == key)).map (fun e => e.2)

/-- `mdnCache.set(key, value)`: overwrite any entry for the key. -/
def cacheSet (cache : MDNCache) (key : Str) (value : CacheEntry) : MDNCache :=
  (key, value) :: cache.filter (fun e => !(e.1 == key))

/-- `isCacheValid` of mdnClient.ts: `Date.now() - entry.timestamp < CACHE_TTL`. -/
def isCacheValid (now : Nat) (cacheEntry : CacheEntry) : Bool :=
  now - cacheEntry.timestamp < CACHE_TTL

/-- Character class `[:\s]` of the section/version regexes. -/
def isColonOrSpace (c : Char) : Bool := c == ':' || c.isWhitespace

/-- Scan for the first occurrence of `Browser compatibility` or
    `Browser support` (the regex alternation, case-insensitively via the
    pre-lowered content) and return the remainder after the keyword. -/
def findBrowserSection : Str → Option Str
  | [] => none
  | c :: rest =>
    if (lit "browser compatibility").isPrefixOf (c :: rest) then
      some ((c :: rest).drop (lit "browser compatibility").length)
    else if (lit "browser support").isPrefixOf (c :: rest) then
      some ((c :: rest).drop (lit "browser support").length)
    else findBrowserSection rest

/-- The lazy capture `([\s\S]*?)` up to the first terminator
    `\n\n`, `\n#` or end of input. -/
def captureLazy : Str → Str
  | [] => []
  | c :: rest =>
    if (lit "\n\n").isPrefixOf (c :: rest) || (lit "\n#").isPrefixOf (c :: rest) then []
    else c :: captureLazy rest

/-- The captured group of
    `/(?:Browser compatibility|Browser support)[:\s]*([\s\S]*?)(?:\n\n|\n#|$)/i`
    on the lowercased content: find the keyword, greedily skip `[:\s]*`,
    lazily capture to the first terminator (the terminator can also be the
    end of input, so a found keyword always yields a match). -/
def extractSection (lowerContent : Str) : Option Str :=
  (findBrowserSection lowerContent).map (fun rest =>
    captureLazy (rest.dropWhile isColonOrSpace))

/-- Parse a digit run into a number (`parseInt` on a `(\d+)` capture). -/
def digitsToNat (digits : Str) : Nat :=
  digits.foldl (fun n c => n * 10 + (c.toNat - 48)) 0

/-- `/name[:\s]*(\d+)/` on the (lowercased) section: at each occurrence of
    `name`, greedily skip `[:\s]*` and require at least one digit;
    otherwise continue scanning (backtracking inside `[:\s]*` cannot expose
    a digit since the classes are disjoint). -/
def findVersionFrom (name : Str) : Str → Option Nat
  | [] => none
  | c :: rest =>
    if name.isPrefixOf (c :: rest) then
      let afterSkip := ((c :: rest).drop name.length).dropWhile isColonOrSpace
      let digits := afterSkip.takeWhile Char.isDigit
      if digits.isEmpty then findVersionFrom name rest else some (digitsToNat digits)
    else findVersionFrom name rest

/-- The default support object of `extractBrowserSupport`. -/
def defaultExtracted : ExtractedSupport :=
  { overall_support := 80
  , modern_browsers := true
  , legacy_support := lit "good"
  , is_default := true }

/-- `extractBrowserSupport` of mdnClient.ts.  The regex matches the
    content case-insensitively and the code lowercases the captured
    section, so the whole extraction is performed on the lowered content. -/
def extractBrowserSupport (content : Str) : ExtractedSupport :=
  match extractSection (lowerStr content) with
  | none => defaultExtracted
  | some browserSection =>
    if includesB (lit "check mdn") browserSection
        || includesB (lit "caniuse") browserSection then
      defaultExtracted
    else
      match findVersionFrom (lit "chrome") browserSection,
            findVersionFrom (lit "firefox") browserSection,
            findVersionFrom (lit "safari") browserSection with
      | some chromeVersion, some firefoxVersion, some safariVersion =>
        if chromeVersion ≤ 100 && firefoxVersion ≤ 100 && safariVersion ≤ 15 then
          { defaultExtracted with overall_support := 95, is_default := false }
        else if chromeVersion ≤ 110 && firefoxVersion ≤ 110 && safariVersion ≤ 16 then
          { defaultExtracted with overall_support := 90, is_default := false }
        else
          { defaultExtracted with is_default := false }
      | _, _, _ => defaultExtracted

/-- `parseMDNResponse` of mdnClient.ts (the observed fields). -/
def parseMDNResponse (content : Str) (cssProperty : Str) : MDNData :=
  { property := cssProperty
  , browserSupport := extractBrowserSupport content }

/-- The `mockResponses` table of `simulateMDNResponse` (mdnClient.ts),
    transcribed verbatim from the source template literals. -/
def mockResponses : List (Str × Str) :=
  [ (lit "container-type",
     lit "\nThe container-type CSS property establishes the element as a containment context for container queries.\n\n## Syntax\ncontainer-type: normal | size | inline-size\n\n## Browser Support:\nChrome 105+, Firefox 110+, Safari 16+\n\n## Examples:\n.sidebar \x7b\n  container-type: inline-size;\n\x7d\n\n.card \x7b\n  container-type: size;\n\x7d\n    ")
  , (lit "color-mix",
     lit "\nThe color-mix() CSS function takes two color values and returns the result of mixing them in a given colorspace by a given amount.\n\n## Syntax\ncolor-mix(in <colorspace>, <color> [<percentage>], <color> [<percentage>])\n\n## Browser Support:\nChrome 111+, Firefox 113+, Safari 16.2+\n\n## Examples:\nbackground: color-mix(in srgb, red 50%, blue);\ncolor: color-mix(in oklch, var(--primary) 80%, white);\n    ")
  , (lit "dvh",
     lit "\nDynamic viewport height (dvh) represents 1% of the dynamic viewport\x27s height.\n\n## Syntax\n<length-percentage>\n\n## Browser Support:\nChrome 108+, Firefox 101+, Safari 15.4+\n\n## Examples:\n.hero \x7b\n  height: 100dvh;\n\x7d\n    ")
  , (lit ":has",
     lit "\nThe :has() CSS pseudo-class represents an element if any of the selectors passed as parameters match at least one element.\n\n## Syntax\n:has(<relative-selector-list>)\n\n## Browser Support:\nChrome 105+, Firefox 121+, Safari 15.4+\n\n## Examples:\n.card:has(img) \x7b\n  padding: 0;\n\x7d\n    ")
  , (lit "corner-shape",
     lit "\nThe corner-shape CSS property defines the shape of element corners using superellipse curves for more organic, rounded designs beyond traditional border-radius.\n\n## Syntax\ncorner-shape: round | angle\n\n## Description\nThe corner-shape property allows developers to create more organic, Apple-like rounded corners using superellipse curves instead of traditional circular arcs. This creates smoother, more visually pleasing corner shapes that feel more natural and modern.\n\n## Values\n- round: Creates superellipse curves for organic, smooth corners (default behavior with border-radius)\n- angle: Creates sharp, geometric corners that override border-radius rounding\n\n## Browser Support:\nExperimental - No current browser support (CSS Borders Level 4 specification)\n\n## Examples:\n/* Organic Apple-like corners */\n.organic-card \x7b\n  corner-shape: round;\n  border-radius: 16px;\n\x7d\n\n/* Sharp geometric corners */\n.sharp-button \x7b\n  corner-shape: angle;\n  border-radius: 8px; /* Will be overridden to sharp corners */\n\x7d\n\n/* Mixed corner shapes */\n.mixed-design \x7b\n  corner-shape: round angle round angle;\n  border-radius: 12px 8px 12px 8px;\n\x7d\n\n## Fallback Strategy:\nSince corner-shape is experimental, use border-radius as fallback:\n\n@supports not (corner-shape: round) \x7b\n  .organic-card \x7b\n    border-radius: 16px;\n    /* Additional styling to approximate superellipse */\n  \x7d\n\x7d\n\n## Related Properties:\n- border-radius\n- border-top-left-radius\n- border-top-right-radius\n- border-bottom-left-radius\n- border-bottom-right-radius\n\n## Specification:\nCSS Borders and Box Decoration Module Level 4\nhttps://drafts.csswg.org/css-borders-4/#corner-shape\n    ")
  , (lit "commandfor",
     lit "\nThe commandfor HTML attribute associates an invoker element with a target element that can handle Invoker Commands.\n\n## Syntax\ncommandfor=\"target-id\"\n\n## Browser Support:\nExperimental - check browser compatibility for Invoker Commands API.\n\n## Examples:\n<button commandfor=\"demo-dialog\" command=\"show-modal\">Open dialog</button>\n<dialog id=\"demo-dialog\">\n  <button commandfor=\"demo-dialog\" command=\"close\">Close</button>\n</dialog>\n    ")
  , (lit "command",
     lit "\nThe command HTML attribute specifies a declarative action for an invoker element.\n\n## Syntax\ncommand=\"show-modal | close | toggle-popover | show-popover | hide-popover\"\n\n## Browser Support:\nExperimental - check browser compatibility for Invoker Commands API.\n\n## Examples:\n<button commandfor=\"demo-popover\" command=\"toggle-popover\">Toggle</button>\n<div id=\"demo-popover\" popover>Popover content</div>\n    ")
  , (lit "closedby",
     lit "\nThe closedby attribute controls how a dialog can be dismissed.\n\n## Syntax\nclosedby=\"any | closerequest | none\"\n\n## Browser Support:\nExperimental - check browser compatibility for dialog light dismiss.\n\n## Examples:\n<dialog id=\"settings\" closedby=\"any\">\n  <p>Settings</p>\n  <button commandfor=\"settings\" command=\"close\">Close</button>\n</dialog>\n    ")
  ]

/-- The generic template returned by `simulateMDNResponse` for a topic
    without a bespoke mock. -/
def genericMock (topic : Str) : Str :=
  lit "\nCSS property: " ++ topic ++ lit "\n\n## Description\n" ++ topic
    ++ lit " is a CSS property or feature.\n\n## Browser Support:\nCheck MDN and caniuse.com for current support information.\n\n## Examples:\n/* Example usage for "
    ++ topic ++ lit " */\n.example \x7b\n  " ++ topic ++ lit ": value;\n\x7d\n  "

/-- `simulateMDNResponse` of mdnClient.ts. -/
def simulateMDNResponse (topic : Str) : Str :=
  (((mockResponses.find? (fun e => e.1 == topic)).map (fun e => e.2)).getD
    (genericMock topic))

/-- The cache key `mdn_${normalizedProperty}`. -/
def mdnCacheKey (normalizedProperty : Str) : Str := lit "mdn_" ++ normalizedProperty

/-- `fetchMDNData` of mdnClient.ts: serve a valid cache entry unmodified;
    otherwise fetch (oracle) and parse, or on failure parse the simulated
    response; both outcomes are written to the cache with the current
    timestamp. -/
def fetchMDNData (fetchOracle : Str → Option Str) (now : Nat) (cache : MDNCache)
    (cssProperty : Str) : MDNData × MDNCache :=
  let normalizedProperty := normalizePropertyForMDN cssProperty
  let cacheKey := mdnCacheKey normalizedProperty
  let refetch : MDNData × MDNCache :=
    match fetchOracle normalizedProperty with
    | some pageText =>
      let mdnData := parseMDNResponse pageText normalizedProperty
      (mdnData, cacheSet cache cacheKey { data := mdnData, timestamp := now })
    | none =>
      let parsed := parseMDNResponse (simulateMDNResponse normalizedProperty)
        normalizedProperty
      (parsed, cacheSet cache cacheKey { data := parsed, timestamp := now })
  match cacheGet cache cacheKey with
  | some cached => if isCacheValid now cached then (cached.data, cache) else refetch
  | none => refetch

/-- The `supportMap` of `getBrowserSupportPercentage`. -/
def supportMap : List (Str × Nat) :=
  [ (lit "display", 98), (lit "flex", 95), (lit "grid", 92)
  , (lit "scroll-snap-type", 85), (lit "scroll-snap-align", 85)
  , (lit "overflow-x", 98), (lit "transition", 96), (lit "transform", 94)
  , (lit "container-type", 75), (lit "container-name", 75), (lit "@container", 75)
  , (lit "::scroll-button()", 15), (lit "::scroll-marker-group", 15)
  , (lit "::scroll-marker", 15), (lit "::column", 15), (lit ":target-current", 20)
  , (lit ":target-before", 10), (lit ":target-after", 10)
  , (lit "scroll-marker-group", 15), (lit "view-transition-name", 35)
  , (lit "::view-transition", 35), (lit "::view-transition-group()", 35)
  , (lit "::view-transition-image-pair()", 35), (lit "::view-transition-old()", 35)
  , (lit "::view-transition-new()", 35), (lit "corner-shape", 5)
  , (lit "display: grid-lanes", 10), (lit "animation-range", 30)
  , (lit "animation-timeline", 35), (lit "-webkit-box-reflect", 20) ]

/-- Look a property up in `supportMap`. -/
def supportMapGet (key : Str) : Option Nat :=
  ((supportMap.find? (fun e => e.1 == key)).map (fun e => e.2))

/-- `getBrowserSupportPercentage` of mdnClient.ts: exact key, then the
    part before `:`, then with a trailing `()` stripped, default 80. -/
def getBrowserSupportPercentage (cssProperty : Str) : Nat :=
  match supportMapGet cssProperty with
  | some v => v
  | none =>
    let trimmed := trimStr cssProperty
    let fromBase :=
      if trimmed.contains ':' then
        supportMapGet (trimStr (trimmed.takeWhile (fun c => c ≠ ':')))
      else none
    match fromBase with
    | some v => v
    | none =>
      let noParens :=
        if decide (List.IsSuffix (lit "()") trimmed) then
          trimmed.take (trimmed.length - 2)
        else trimmed
      (supportMapGet noParens).getD 80

/-- `getExperimentalFeatures` of mdnClient.ts. -/
def getExperimentalFeatures (cssProperty : Str) : List Str :=
  if cssProperty == lit "container-type" then
    [lit "container-query-length", lit "container-query-inline-size"]
  else if cssProperty == lit "scroll-snap-type" then [lit "scroll-snap-stop"]
  else if cssProperty == lit "transform" then [lit "transform-style", lit "perspective"]
  else if cssProperty == lit "corner-shape" then
    [lit "superellipse curves", lit "organic corner shapes", lit "CSS Borders Level 4"]
  else []

/-- One per-browser entry of `BrowserSupportInfo`. -/
structure BrowserVersion where
  version : Str
  support : Str
deriving DecidableEq

/-- The `browsers` object of `BrowserSupportInfo`. -/
structure Browsers where
  chrome : BrowserVersion
  firefox : BrowserVersion
  safari : BrowserVersion
  edge : BrowserVersion
deriving DecidableEq

/-- The constant fallback `browsers` object used when parsed data carries
    none (which is always the case for `parseMDNResponse` output). -/
def defaultBrowsers : Browsers :=
  { chrome := { version := lit "90+", support := lit "full" }
  , firefox := { version := lit "88+", support := lit "full" }
  , safari := { version := lit "14+", support := lit "full" }
  , edge := { version := lit "90+", support := lit "full" } }

/-- The `BrowserSupportInfo` record of src/services/css/types.ts. -/
structure BrowserSupportInfo where
  overall_support : Nat
  is_default : Bool
  browsers : Browsers
  experimental_features : List Str
deriving DecidableEq

/-- `fetchBrowserSupportFromMDN` of mdnClient.ts.  `fetchMDNData` absorbs
    every fetch failure internally (its own catch falls back to the
    simulated response), so it never throws; the parsed data always has a
    numeric `browserSupport.overall_support`, hence `hasMdnSupport` is true
    and `isDefault` is the parsed `is_default` flag.  The function's own
    catch branch (the static fallback, `staticFallbackSupport` below) is
    therefore unreachable. -/
def fetchBrowserSupportFromMDN (fetchOracle : Str → Option Str) (now : Nat)
    (cache : MDNCache) (cssProperty : Str) (includeExperimental : Bool := false) :
    BrowserSupportInfo × MDNCache :=
  let r := fetchMDNData fetchOracle now cache cssProperty
  ( { overall_support := r.1.browserSupport.overall_support
    , is_default := r.1.browserSupport.is_default
    , browsers := defaultBrowsers
    , experimental_features :=
        if includeExperimental then getExperimentalFeatures cssProperty else [] }
  , r.2 )

/-- The record built by the catch branch of `fetchBrowserSupportFromMDN`:
    the static per-property percentage table with `is_default := true`. -/
def staticFallbackSupport (cssProperty : Str) (includeExperimental : Bool) :
    BrowserSupportInfo :=
  { overall_support := getBrowserSupportPercentage cssProperty
  , is_default := true
  , browsers := defaultBrowsers
  , experimental_features :=
      if includeExperimental then getExperimentalFeatures cssProperty else [] }

/-- A fetch oracle in which every documentation fetch fails. -/
def failingFetch : Str → Option Str := fun _ => none

/-- The support record derived from the simulated (offline) MDN response
    for a property — the value every fresh resolution produces when the
    fetch fails. -/
def mockDerivedSupport (cssProperty : Str) (includeExperimental : Bool) :
    BrowserSupportInfo :=
  let normalizedProperty := normalizePropertyForMDN cssProperty
  let parsed := parseMDNResponse (simulateMDNResponse normalizedProperty) normalizedProperty
  { overall_support := parsed.browserSupport.overall_support
  , is_default := parsed.browserSupport.is_default
  , browsers := defaultBrowsers
  , experimental_features :=
      if includeExperimental then getExperimentalFeatures cssProperty else [] }


/-! ## Concrete data for witnesses and counterexamples

`RESPONSIVE_FEATURES` transcribes the responsive feature module of the
registry (packages/core/src/features/responsive/properties.ts) in key
insertion order.  It serves as a concrete registry slice for evaluating
the pipeline on real feature data. -/

/-- The `container-queries` feature of RESPONSIVE_FEATURES. -/
def containerQueriesFeature : CSSFeature :=
  { name := lit "Container Queries"
  , category := .responsive
  , properties := [lit "container-type", lit "container-name", lit "container",
      lit "@container"]
  , description := lit "Responsive design based on container size rather than viewport"
  , support_level := .moderate
  , mdn_url := lit "https://developer.mozilla.org/en-US/docs/Web/CSS/CSS_Container_Queries" }

/-- The `anchored-container-queries` feature of RESPONSIVE_FEATURES. -/
def anchoredContainerQueriesFeature : CSSFeature :=
  { name := lit "Anchored Container Queries"
  , category := .responsive
  , properties := [lit "container-type: anchored", lit "@container anchored()",
      lit "anchored(fallback: ...)"]
  , description := lit "Query which fallback position an anchor-positioned element uses. Works with CSS Anchor Positioning to detect position-try-fallbacks resolution. Enables styling adjustments like arrow direction on tooltips based on actual rendered position."
  , support_level := .experimental
  , mdn_url := lit "https://developer.chrome.com/blog/anchored-container-queries" }

/-- The `container-style-queries` feature of RESPONSIVE_FEATURES. -/
def containerStyleQueriesFeature : CSSFeature :=
  { name := lit "Container Style Queries"
  , category := .responsive
  , properties := [lit "@container style()", lit "style(--custom-property)"]
  , description := lit "Query container computed styles including custom properties. Enables conditional styling based on CSS variable values."
  , support_level := .moderate
  , mdn_url := lit "https://developer.mozilla.org/en-US/docs/Web/CSS/CSS_containment/Container_size_and_style_queries" }

/-- The `scroll-state-queries` feature of RESPONSIVE_FEATURES. -/
def scrollStateQueriesFeature : CSSFeature :=
  { name := lit "Scroll State Container Queries"
  , category := .responsive
  , properties := [lit "@container scroll-state()", lit "scroll-state(scrollable: ...)",
      lit "scroll-state(snapped: ...)", lit "scroll-state(stuck: ...)"]
  , description := lit "Query scroll-related states of containers: whether scrollable, snapped to scroll-snap, or stuck (position: sticky). Enables scroll-aware styling without JavaScript."
  , support_level := .experimental
  , mdn_url := lit "https://developer.mozilla.org/en-US/docs/Web/CSS/CSS_conditional_rules/Container_scroll-state_queries" }

/-- The `media-queries` feature of RESPONSIVE_FEATURES. -/
def mediaQueriesFeature : CSSFeature :=
  { name := lit "Media Queries"
  , category := .responsive
  , properties := [lit "@media", lit "min-width", lit "max-width", lit "min-height",
      lit "max-height", lit "orientation", lit "aspect-ratio", lit "prefers-color-scheme",
      lit "prefers-reduced-motion"]
  , description := lit "Responsive design based on device characteristics"
  , support_level := .excellent
  , mdn_url := lit "https://developer.mozilla.org/en-US/docs/Web/CSS/Media_Queries" }

/-- `Object.values(RESPONSIVE_FEATURES)` in insertion order. -/
def RESPONSIVE_FEATURES : List CSSFeature :=
  [containerQueriesFeature, anchoredContainerQueriesFeature, containerStyleQueriesFeature,
   scrollStateQueriesFeature, mediaQueriesFeature]

/-- A registry consisting of the responsive feature module. -/
def regResponsive : FeatureRegistry :=
  { values := RESPONSIVE_FEATURES, carousel := [] }

/-- An environment in which every support lookup returns the default
    record `{overall_support: 80, is_default: true}` (as produced, e.g.,
    by a failed fetch of a property with no bespoke mock), no live
    baseline classification exists, and MDN syntax text is absent. -/
def envDefault : SuggestionEnv :=
  { browserSupport := fun _ => { overall_support := 80, is_default := true }
  , mdnBaseline := fun _ => none
  , mdnSynText := fun _ => none }

/-! ## Structural lemmas about the pipeline -/

theorem pairwise_trivial {α : Type} {P : α → α → Prop} (hP : ∀ a b, P a b) :
    ∀ l : List α, l.Pairwise P
  | [] => .nil
  | x :: xs => .cons (fun y _ => hP x y) (pairwise_trivial hP xs)

theorem dedupeSuggestionsAux_spec (seen : List Str) :
    ∀ l : List CSSPropertySuggestion,
      (dedupeSuggestionsAux seen l).Pairwise (fun a b => a.property ≠ b.property)
      ∧ ∀ s ∈ dedupeSuggestionsAux seen l, s.property ∉ seen := by
  intro l
  induction l generalizing seen with
  | nil => exact ⟨.nil, by simp [dedupeSuggestionsAux]⟩
  | cons x xs ih =>
    simp only [dedupeSuggestionsAux]
    by_cases hx : x.property ∈ seen
    · simpa [hx] using ih seen
    · simp only [if_neg hx]
      obtain ⟨hpw, hseen⟩ := ih (x.property :: seen)
      refine ⟨.cons (fun y hy => ?_) hpw, ?_⟩
      · intro hxy
        exact hseen y hy (hxy ▸ List.mem_cons_self _ _)
      · intro s hs
        rcases List.mem_cons.mp hs with rfl | hs
        · exact hx
        · exact fun hmem => hseen s hs (List.mem_cons_of_mem _ hmem)

theorem dedupeSuggestions_pairwise (l : List CSSPropertySuggestion) :
    (dedupeSuggestions l).Pairwise (fun a b => a.property ≠ b.property) :=
  (dedupeSuggestionsAux_spec [] l).1

theorem dedupeSuggestionsAux_subset (seen : List Str) :
    ∀ l : List CSSPropertySuggestion, dedupeSuggestionsAux seen l ⊆ l := by
  intro l
  induction l generalizing seen with
  | nil => simp [dedupeSuggestionsAux]
  | cons x xs ih =>
    intro a ha
    simp only [dedupeSuggestionsAux] at ha
    by_cases hx : x.property ∈ seen
    · simp only [if_pos hx] at ha
      exact List.mem_cons_of_mem _ (ih seen ha)
    · simp only [if_neg hx, List.mem_cons] at ha
      rcases ha with rfl | ha
      · exact List.mem_cons_self _ _
      · exact List.mem_cons_of_mem _ (ih _ ha)

theorem dedupeSuggestions_subset (l : List CSSPropertySuggestion) :
    dedupeSuggestions l ⊆ l :=
  dedupeSuggestionsAux_subset [] l

/-- C1 — For every input to the public suggestion entry point (string or
    string-array description, any approach, any baseline preference, any
    maxSuggestions) and every external-resolver behaviour and registry, the
    returned suggestion list has length at most `maxSuggestions` and no two
    suggestions share a `property` value. -/
theorem C1_result_bounded_and_unique (env : SuggestionEnv) (registry : FeatureRegistry)
    (description : Str ⊕ List Str) (approach : Approach) (projectContext : Option Str)
    (baselinePreference : Option Str) (maxSuggestions : Nat) :
    (searchMDNForCSSProperties env registry description approach projectContext
        baselinePreference maxSuggestions).length ≤ maxSuggestions
    ∧ (searchMDNForCSSProperties env registry description approach projectContext
        baselinePreference maxSuggestions).Pairwise
        (fun a b => a.property ≠ b.property) := by
  have key : ∀ l : List CSSPropertySuggestion,
      ((dedupeSuggestions l).take maxSuggestions).length ≤ maxSuggestions
      ∧ ((dedupeSuggestions l).take maxSuggestions).Pairwise
          (fun a b => a.property ≠ b.property) := by
    intro l
    constructor
    · exact List.length_take_le maxSuggestions (dedupeSuggestions l)
    · exact (dedupeSuggestions_pairwise l).sublist (List.take_sublist _ _)
  cases description with
  | inl d => exact key _
  | inr keywords => exact key _

/-- Provenance of a suggestion on the string-description path: it was built
    either by the main category loop, or (when the main loop produced
    nothing) by the zero-candidate fallback over the top-5 search results. -/
theorem mem_searchWithIntelligentRanking {env : SuggestionEnv}
    {registry : FeatureRegistry} {analysis : TaskAnalysis} {approach : Approach}
    {pref : Option BaselinePreference} {maxSuggestions : Nat}
    {s : CSSPropertySuggestion}
    (h : s ∈ searchWithIntelligentRanking env registry analysis approach pref
      maxSuggestions) :
    (mainLoopSuggestions env registry analysis approach pref ≠ [] ∧
      ∃ f ∈ searchFeatures registry.values analysis.keywords,
        buildMainSuggestion env analysis approach pref f = some s)
    ∨ (mainLoopSuggestions env registry analysis approach pref = [] ∧
      ∃ f ∈ searchFeatures registry.values analysis.keywords,
        buildFallbackSuggestion env pref f = some s) := by
  unfold searchWithIntelligentRanking at h
  have h1 := dedupeSuggestions_subset _ (List.mem_of_mem_take h)
  have h2 := sortByDesc_mem _ h1
  have h3 := sortByDesc_mem _ h2
  by_cases hempty :
      (mainLoopSuggestions env registry analysis approach pref).isEmpty
  · right
    refine ⟨List.isEmpty_iff.mp hempty, ?_⟩
    rw [if_pos hempty] at h3
    obtain ⟨f, hf, hbuild⟩ := List.mem_filterMap.mp h3
    exact ⟨f, List.mem_of_mem_take hf, hbuild⟩
  · left
    refine ⟨fun hc => hempty (by simp [hc]), ?_⟩
    rw [if_neg hempty] at h3
    unfold mainLoopSuggestions at h3
    obtain ⟨cat, _, hmem⟩ := List.mem_flatMap.mp h3
    obtain ⟨f, hf, hbuild⟩ := List.mem_filterMap.mp hmem
    exact ⟨f, hf, hbuild⟩

/-- Provenance of a suggestion in the general loop of the legacy path. -/
theorem legacy_fold_mem (env : SuggestionEnv) (approach : Approach)
    (pref : Option BaselinePreference) :
    ∀ (features : List CSSFeature) (init : List CSSPropertySuggestion)
      (s : CSSPropertySuggestion),
      s ∈ features.foldl
        (fun acc feature =>
          if acc.any (fun t => t.property == feature.properties.headD (lit "")) then acc
          else
            match buildLegacySuggestion env approach pref feature with
            | some t => acc ++ [t]
            | none => acc)
        init →
      s ∈ init ∨ ∃ f, buildLegacySuggestion env approach pref f = some s := by
  intro features
  induction features with
  | nil => exact fun init s h => Or.inl h
  | cons f fs ih =>
    intro init s h
    rw [List.foldl_cons] at h
    rcases ih _ s h with hstep | hex
    · by_cases hskip :
          (init.any (fun t => t.property == f.properties.headD (lit ""))) = true
      · rw [if_pos hskip] at hstep
        exact Or.inl hstep
      · rw [if_neg hskip] at hstep
        rcases hb : buildLegacySuggestion env approach pref f with _ | t
        · rw [hb] at hstep
          exact Or.inl hstep
        · rw [hb] at hstep
          rcases List.mem_append.mp hstep with hinit | hn
          · exact Or.inl hinit
          · rcases List.mem_singleton.mp hn with rfl
            exact Or.inr ⟨f, hb⟩
    · exact Or.inr hex

/-- Provenance of a suggestion on the legacy keyword-array path: it was
    built by `buildLegacySuggestion` (carousel branch or general loop). -/
theorem mem_searchLegacyKeywords {env : SuggestionEnv} {registry : FeatureRegistry}
    {keywords : List Str} {approach : Approach} {pref : Option BaselinePreference}
    {maxSuggestions : Nat} {s : CSSPropertySuggestion}
    (h : s ∈ searchLegacyKeywords env registry keywords approach pref maxSuggestions) :
    ∃ f, buildLegacySuggestion env approach pref f = some s := by
  unfold searchLegacyKeywords at h
  have h1 := dedupeSuggestions_subset _ (List.mem_of_mem_take h)
  rcases legacy_fold_mem env approach pref _ _ _ h1 with hinit | hex
  · by_cases hc :
        (keywords.contains (lit "carousel") || keywords.contains (lit "slider")) = true
    · rw [if_pos hc] at hinit
      obtain ⟨f, _, hbuild⟩ := List.mem_filterMap.mp hinit
      exact ⟨f, hbuild⟩
    · rw [if_neg hc] at hinit
      simp at hinit
  · exact hex

/-- The baseline filter of every builder: when a recognized preference `p`
    is active, an accepted suggestion carries `p`'s baseline label. -/
theorem buildMainSuggestion_baseline {env : SuggestionEnv} {analysis : TaskAnalysis}
    {approach : Approach} {p : BaselinePreference} {f : CSSFeature}
    {s : CSSPropertySuggestion}
    (h : buildMainSuggestion env analysis approach (some p) f = some s) :
    s.baseline = getBaselineLabel p := by
  simp only [buildMainSuggestion] at h
  split at h
  case isTrue hc =>
    rw [Bool.and_eq_true] at hc
    have hb := hc.2
    simp only [shouldIncludeBaseline, beq_iff_eq] at hb
    injection h with h2
    subst h2
    exact congrArg getBaselineLabel hb
  case isFalse => cases h

theorem buildFallbackSuggestion_baseline {env : SuggestionEnv}
    {p : BaselinePreference} {f : CSSFeature} {s : CSSPropertySuggestion}
    (h : buildFallbackSuggestion env (some p) f = some s) :
    s.baseline = getBaselineLabel p := by
  simp only [buildFallbackSuggestion] at h
  split at h
  case isTrue hc =>
    simp only [shouldIncludeBaseline, beq_iff_eq] at hc
    injection h with h2
    subst h2
    exact congrArg getBaselineLabel hc
  case isFalse => cases h

theorem buildLegacySuggestion_baseline {env : SuggestionEnv} {approach : Approach}
    {p : BaselinePreference} {f : CSSFeature} {s : CSSPropertySuggestion}
    (h : buildLegacySuggestion env approach (some p) f = some s) :
    s.baseline = getBaselineLabel p := by
  simp only [buildLegacySuggestion] at h
  split at h
  case isTrue hc =>
    rw [Bool.and_eq_true] at hc
    have hb := hc.2
    simp only [shouldIncludeBaseline, beq_iff_eq] at hb
    injection h with h2
    subst h2
    exact congrArg getBaselineLabel hb
  case isFalse => cases h

/-- The approach filter of the builders that apply it, at
    `approach = compatible`. -/
theorem buildMainSuggestion_compatible {env : SuggestionEnv} {analysis : TaskAnalysis}
    {pref : Option BaselinePreference} {f : CSSFeature} {s : CSSPropertySuggestion}
    (h : buildMainSuggestion env analysis .compatible pref f = some s) :
    s.support_level = .excellent := by
  simp only [buildMainSuggestion] at h
  split at h
  case isTrue hc =>
    rw [Bool.and_eq_true] at hc
    have ha := hc.1
    simp only [shouldIncludeBasedOnApproach, beq_iff_eq] at ha
    injection h with h2
    subst h2
    exact ha
  case isFalse => cases h

theorem buildLegacySuggestion_compatible {env : SuggestionEnv}
    {pref : Option BaselinePreference} {f : CSSFeature} {s : CSSPropertySuggestion}
    (h : buildLegacySuggestion env .compatible pref f = some s) :
    s.support_level = .excellent := by
  simp only [buildLegacySuggestion] at h
  split at h
  case isTrue hc =>
    rw [Bool.and_eq_true] at hc
    have ha := hc.1
    simp only [shouldIncludeBasedOnApproach, beq_iff_eq] at ha
    injection h with h2
    subst h2
    exact ha
  case isFalse => cases h

/-- C2 counterexample — the claim as stated is false on the code: under
    `approach = "compatible"`, the description `"device"` (which activates
    no intent, so the main loop is empty) reaches the zero-candidate
    fallback, which does NOT apply the approach filter; with the default
    support environment the returned list contains the `container-type`
    suggestion whose derived support level is `moderate`, not
    `excellent`. -/
theorem C2_counterexample :
    ((searchMDNForCSSProperties envDefault regResponsive (.inl (lit "device"))
        .compatible none none 5).all
      (fun s => s.support_level == .excellent)) = false ∧
    ((searchMDNForCSSProperties envDefault regResponsive (.inl (lit "device"))
        .compatible none none 5).map
      (fun s => (s.property, s.support_level)))
      = [(lit "@media", .excellent), (lit "container-type", .moderate)] := by
  constructor
  · decide
  · decide

/-- C2 (amended) — Under `approach = "compatible"`, every suggestion on the
    legacy keyword-array path, and every suggestion produced while the main
    category loop is non-empty on the string path, has derived support
    level `excellent`; only the zero-candidate fallback (which applies the
    baseline filter but not the approach filter) can violate this. -/
theorem C2_compatible_approach_filter :
    (∀ (env : SuggestionEnv) (registry : FeatureRegistry) (keywords : List Str)
        (projectContext : Option Str) (baselinePreference : Option Str)
        (maxSuggestions : Nat) (s : CSSPropertySuggestion),
        s ∈ searchMDNForCSSProperties env registry (.inr keywords) .compatible
          projectContext baselinePreference maxSuggestions →
        s.support_level = .excellent)
    ∧ (∀ (env : SuggestionEnv) (registry : FeatureRegistry) (analysis : TaskAnalysis)
        (pref : Option BaselinePreference) (maxSuggestions : Nat)
        (s : CSSPropertySuggestion),
        mainLoopSuggestions env registry analysis .compatible pref ≠ [] →
        s ∈ searchWithIntelligentRanking env registry analysis .compatible pref
          maxSuggestions →
        s.support_level = .excellent) := by
  constructor
  · intro env registry keywords projectContext baselinePreference maxSuggestions s hmem
    simp only [searchMDNForCSSProperties] at hmem
    obtain ⟨f, hbuild⟩ := mem_searchLegacyKeywords hmem
    exact buildLegacySuggestion_compatible hbuild
  · intro env registry analysis pref maxSuggestions s hne hmem
    rcases mem_searchWithIntelligentRanking hmem with ⟨_, f, _, hbuild⟩ | ⟨hempty, _⟩
    · exact buildMainSuggestion_compatible hbuild
    · exact absurd hempty hne

/-- A default (empty) suggestion record, used only as the `headD` default
    when naming a concrete element of a computed run. -/
def emptySugg : CSSPropertySuggestion :=
  { property := []
  , description := []
  , synText := []
  , browser_support := { overall_support := 0, modern_browsers := false, legacy_support := [] }
  , use_cases := []
  , mdn_url := []
  , support_level := .experimental
  , baseline := []
  , relevanceScore := none }

/-- The single suggestion of the legacy-path witness run for C2. -/
def c2LegacyWitnessSugg : CSSPropertySuggestion :=
  (searchMDNForCSSProperties envDefault regResponsive (.inr [lit "@media"]) .compatible
    none none 5).headD emptySugg

/-- The single suggestion of the main-loop witness run for C2
    (description `"device center"` activates the layout intent, so the
    main loop is non-empty). -/
def c2MainWitnessSugg : CSSPropertySuggestion :=
  (searchWithIntelligentRanking envDefault regResponsive
    (analyzeTaskIntent (lit "device center") none) .compatible none 5).headD emptySugg

theorem C2_witness :
    (c2LegacyWitnessSugg ∈ searchMDNForCSSProperties envDefault regResponsive
        (.inr [lit "@media"]) .compatible none none 5
      ∧ c2LegacyWitnessSugg.support_level = .excellent)
    ∧ (mainLoopSuggestions envDefault regResponsive
        (analyzeTaskIntent (lit "device center") none) .compatible none ≠ []
      ∧ c2MainWitnessSugg ∈ searchWithIntelligentRanking envDefault regResponsive
          (analyzeTaskIntent (lit "device center") none) .compatible none 5
      ∧ c2MainWitnessSugg.support_level = .excellent) := by
  have hrun1 : searchMDNForCSSProperties envDefault regResponsive
      (.inr [lit "@media"]) .compatible none none 5 = [c2LegacyWitnessSugg] := rfl
  have hmem1 : c2LegacyWitnessSugg ∈ searchMDNForCSSProperties envDefault regResponsive
      (.inr [lit "@media"]) .compatible none none 5 := by
    rw [hrun1]; exact List.mem_cons_self _ _
  have hrun2 : searchWithIntelligentRanking envDefault regResponsive
      (analyzeTaskIntent (lit "device center") none) .compatible none 5
      = [c2MainWitnessSugg] := rfl
  have hne : mainLoopSuggestions envDefault regResponsive
      (analyzeTaskIntent (lit "device center") none) .compatible none ≠ [] := by
    intro hc
    have : searchWithIntelligentRanking envDefault regResponsive
        (analyzeTaskIntent (lit "device center") none) .compatible none 5
        = [c2MainWitnessSugg] := hrun2
    rw [searchWithIntelligentRanking, hc] at this
    revert this
    decide
  have hmem2 : c2MainWitnessSugg ∈ searchWithIntelligentRanking envDefault regResponsive
      (analyzeTaskIntent (lit "device center") none) .compatible none 5 := by
    rw [hrun2]; exact List.mem_cons_self _ _
  exact ⟨⟨hmem1, C2_compatible_approach_filter.1 envDefault regResponsive _ none none 5 _ hmem1⟩,
    ⟨hne, hmem2, C2_compatible_approach_filter.2 envDefault regResponsive _ none 5 _ hne hmem2⟩⟩

/-- C4 — When the baseline preference string is recognized, every returned
    suggestion carries exactly the preference's baseline label (and the
    label map is injective, so baselines match exactly); when the string is
    not in the normalization vocabulary, the pipeline behaves as if no
    preference had been supplied at all. -/
theorem C4_baseline_filter :
    (∀ (env : SuggestionEnv) (registry : FeatureRegistry)
        (description : Str ⊕ List Str) (approach : Approach)
        (projectContext : Option Str) (baselinePreference : Option Str)
        (maxSuggestions : Nat) (p : BaselinePreference) (s : CSSPropertySuggestion),
        normalizeBaselinePreference baselinePreference = some p →
        s ∈ searchMDNForCSSProperties env registry description approach projectContext
          baselinePreference maxSuggestions →
        s.baseline = getBaselineLabel p)
    ∧ (∀ b₁ b₂ : BaselinePreference, getBaselineLabel b₁ = getBaselineLabel b₂ → b₁ = b₂)
    ∧ (∀ (env : SuggestionEnv) (registry : FeatureRegistry)
        (description : Str ⊕ List Str) (approach : Approach)
        (projectContext : Option Str) (v : Str) (maxSuggestions : Nat),
        normalizeBaselinePreference (some v) = none →
        searchMDNForCSSProperties env registry description approach projectContext
          (some v) maxSuggestions
          = searchMDNForCSSProperties env registry description approach projectContext
            none maxSuggestions) := by
  refine ⟨?_, ?_, ?_⟩
  · intro env registry description approach projectContext baselinePreference
      maxSuggestions p s hp hmem
    cases description with
    | inl d =>
      simp only [searchMDNForCSSProperties, hp] at hmem
      rcases mem_searchWithIntelligentRanking hmem with ⟨_, f, _, hbuild⟩ | ⟨_, f, _, hbuild⟩
      · exact buildMainSuggestion_baseline hbuild
      · exact buildFallbackSuggestion_baseline hbuild
    | inr keywords =>
      simp only [searchMDNForCSSProperties, hp] at hmem
      obtain ⟨f, hbuild⟩ := mem_searchLegacyKeywords hmem
      exact buildLegacySuggestion_baseline hbuild
  · intro b₁ b₂ h
    cases b₁ <;> cases b₂ <;> revert h <;> decide
  · intro env registry description approach projectContext v maxSuggestions h
    cases description <;> simp only [searchMDNForCSSProperties, h] <;> rfl

/-- The single suggestion of the witness run for C4 (preference "wide"). -/
def c4WitnessSugg : CSSPropertySuggestion :=
  (searchMDNForCSSProperties envDefault regResponsive (.inl (lit "device")) .modern
    none (some (lit "wide")) 5).headD emptySugg

theorem C4_witness :
    normalizeBaselinePreference (some (lit "wide")) = some .widelyAvailable
    ∧ c4WitnessSugg ∈ searchMDNForCSSProperties envDefault regResponsive
        (.inl (lit "device")) .modern none (some (lit "wide")) 5
    ∧ c4WitnessSugg.baseline = getBaselineLabel .widelyAvailable
    ∧ BaselinePreference.widelyAvailable = .widelyAvailable
    ∧ searchMDNForCSSProperties envDefault regResponsive (.inl (lit "device")) .modern
        none (some (lit "zzz")) 5
      = searchMDNForCSSProperties envDefault regResponsive (.inl (lit "device")) .modern
        none none 5 := by
  have hp : normalizeBaselinePreference (some (lit "wide")) = some .widelyAvailable := by
    decide
  have hmem : c4WitnessSugg ∈ searchMDNForCSSProperties envDefault regResponsive
      (.inl (lit "device")) .modern none (some (lit "wide")) 5 := by decide
  exact ⟨hp, hmem,
    C4_baseline_filter.1 envDefault regResponsive _ .modern none _ 5 _ _ hp hmem,
    C4_baseline_filter.2.1 .widelyAvailable .widelyAvailable rfl,
    C4_baseline_filter.2.2 envDefault regResponsive _ .modern none (lit "zzz") 5
      (by decide)⟩

/-- A feature exposing the physical `width` token (registry slice used to
    exhibit the reranker's behaviour in the pipeline). -/
def widthSizingFeature : CSSFeature :=
  { name := lit "Physical Sizing"
  , category := .layout
  , properties := [lit "width"]
  , description := lit "Sizing based on viewport measurements"
  , support_level := .excellent
  , mdn_url := lit "https://developer.mozilla.org/en-US/docs/Web/CSS/width" }

/-- A feature exposing the logical `inline-size` token. -/
def inlineSizeSizingFeature : CSSFeature :=
  { name := lit "Logical Sizing"
  , category := .layout
  , properties := [lit "inline-size"]
  , description := lit "Sizing based on viewport measurements"
  , support_level := .excellent
  , mdn_url := lit "https://developer.mozilla.org/en-US/docs/Web/CSS/inline-size" }

/-- A registry with the width feature listed before the inline-size
    feature; both score identically for the keywords of `"device"`. -/
def regLogicalPair : FeatureRegistry :=
  { values := [widthSizingFeature, inlineSizeSizingFeature], carousel := [] }

/-- C3 — The logical-preference reranker is wired to read `a.properties`,
    but the suggestion objects the pipeline passes it carry only
    `property` (singular), so every logical score is 0 and the reranker
    leaves the pipeline order unchanged: a run producing two
    equal-relevance suggestions, the width-exposing one first, returns
    them in that order, although `calculateLogicalScore` ranks
    `inline-size` (6) above `width` (1) and the reranker does sort
    correctly when the candidates carry a `properties` array. -/
theorem C3_reranker_noop_in_pipeline :
    ((searchMDNForCSSProperties envDefault regLogicalPair (.inl (lit "device")) .modern
        none none 5).map (fun s => (s.property, s.relevanceScore)))
      = [(lit "width", none), (lit "inline-size", none)]
    ∧ calculateLogicalScore [lit "inline-size"] = 6
    ∧ calculateLogicalScore [lit "width"] = 1
    ∧ rankByLogicalPreference (fun f : CSSFeature => f.properties)
        [widthSizingFeature, inlineSizeSizingFeature]
      = [inlineSizeSizingFeature, widthSizingFeature]
    ∧ (∀ l : List CSSPropertySuggestion, rankByLogicalPreference (fun _ => []) l = l) := by
  refine ⟨by decide, by decide, by decide, by decide, ?_⟩
  intro l
  exact sortByDesc_of_pairwise _ (pairwise_trivial (fun a b => le_refl _) l)

/-- C5 counterexample — the claim that a documentation-fetch failure
    yields the static-fallback record with `isDefault = true` is false on
    the code: a failed fetch for `container-type` is answered from the
    bespoke simulated MDN response, whose parsed browser versions yield
    `overall_support = 90` and `is_default = false` (the static table
    holds 75 for this property). -/
theorem C5_counterexample :
    (fetchBrowserSupportFromMDN failingFetch 0 [] (lit "container-type") false).1.is_default
      = false
    ∧ (fetchBrowserSupportFromMDN failingFetch 0 [] (lit "container-type")
        false).1.overall_support = 90
    ∧ ((fetchBrowserSupportFromMDN failingFetch 0 [] (lit "container-type") false).1
        == staticFallbackSupport (lit "container-type") false) = false := by
  refine ⟨by decide, by decide, by decide⟩

/-- C5 (amended) — The support resolver never propagates a fetch failure:
    with every fetch failing, a fresh resolution returns the record
    derived from the simulated offline MDN response (never an exception),
    and for a property id with no bespoke mock — such as
    `unknown-property-xyz`, which is also absent from the static table —
    that record has `overall_support = 80` and `is_default = true`. -/
theorem C5_failure_absorbed :
    (∀ (p : Str) (now : Nat) (includeExperimental : Bool),
      (fetchBrowserSupportFromMDN failingFetch now [] p includeExperimental).1
        = mockDerivedSupport p includeExperimental)
    ∧ (fetchBrowserSupportFromMDN failingFetch 0 [] (lit "unknown-property-xyz") false).1
      = { overall_support := 80
        , is_default := true
        , browsers := defaultBrowsers
        , experimental_features := [] } := by
  constructor
  · intro p now includeExperimental
    rfl
  · decide

/-- The data a cache-miss resolution computes for a property under a given
    fetch outcome (the value written to the cache). -/
def freshMDNData (fetchOracle : Str → Option Str) (cssProperty : Str) : MDNData :=
  let normalizedProperty := normalizePropertyForMDN cssProperty
  match fetchOracle normalizedProperty with
  | some pageText => parseMDNResponse pageText normalizedProperty
  | none => parseMDNResponse (simulateMDNResponse normalizedProperty) normalizedProperty

theorem cacheGet_cacheSet_same (cache : MDNCache) (key : Str) (value : CacheEntry) :
    cacheGet (cacheSet cache key value) key = some value := by
  simp [cacheGet, cacheSet, List.find?]

/-- A cache miss makes `fetchMDNData` return the fresh data and write it
    with the current timestamp. -/
theorem fetchMDNData_of_miss {fetchOracle : Str → Option Str} {now : Nat}
    {cache : MDNCache} {cssProperty : Str}
    (h : cacheGet cache (mdnCacheKey (normalizePropertyForMDN cssProperty)) = none) :
    fetchMDNData fetchOracle now cache cssProperty
      = (freshMDNData fetchOracle cssProperty,
        cacheSet cache (mdnCacheKey (normalizePropertyForMDN cssProperty))
          { data := freshMDNData fetchOracle cssProperty, timestamp := now }) := by
  simp only [fetchMDNData, freshMDNData]
  rw [h]
  cases fetchOracle (normalizePropertyForMDN cssProperty) <;> rfl

/-- C6 — Resolving the same property twice within the TTL window (starting
    from a cache without that key) yields equal parsed data and deep-equal
    browser-support records, because the second resolution is served from
    the entry the first one wrote; and an entry whose age has reached the
    TTL is never served: the resolution recomputes fresh data instead. -/
theorem C6_cache_idempotence_and_ttl :
    (∀ (f₁ f₂ : Str → Option Str) (p : Str) (t₁ t₂ : Nat) (c₀ : MDNCache),
      cacheGet c₀ (mdnCacheKey (normalizePropertyForMDN p)) = none →
      t₂ - t₁ < CACHE_TTL →
      (fetchMDNData f₂ t₂ (fetchMDNData f₁ t₁ c₀ p).2 p).1 = (fetchMDNData f₁ t₁ c₀ p).1
      ∧ ∀ includeExperimental : Bool,
          (fetchBrowserSupportFromMDN f₂ t₂ (fetchBrowserSupportFromMDN f₁ t₁ c₀ p
            includeExperimental).2 p includeExperimental).1
          = (fetchBrowserSupportFromMDN f₁ t₁ c₀ p includeExperimental).1)
    ∧ (∀ (f : Str → Option Str) (now : Nat) (c : MDNCache) (p : Str) (e : CacheEntry),
      cacheGet c (mdnCacheKey (normalizePropertyForMDN p)) = some e →
      CACHE_TTL ≤ now - e.timestamp →
      (fetchMDNData f now c p).1 = freshMDNData f p) := by
  constructor
  · intro f₁ f₂ p t₁ t₂ c₀ h0 hwindow
    have hfirst := @fetchMDNData_of_miss f₁ t₁ c₀ p h0
    have hc1 : (fetchMDNData f₁ t₁ c₀ p).1 = freshMDNData f₁ p :=
      congrArg Prod.fst hfirst
    have hc2 : (fetchMDNData f₁ t₁ c₀ p).2
        = cacheSet c₀ (mdnCacheKey (normalizePropertyForMDN p))
          { data := freshMDNData f₁ p, timestamp := t₁ } :=
      congrArg Prod.snd hfirst
    have hvalid : isCacheValid t₂
        { data := freshMDNData f₁ p, timestamp := t₁ } = true := by
      simpa [isCacheValid] using hwindow
    have hget := cacheGet_cacheSet_same c₀ (mdnCacheKey (normalizePropertyForMDN p))
      { data := freshMDNData f₁ p, timestamp := t₁ }
    have hsecond :
        fetchMDNData f₂ t₂ (cacheSet c₀ (mdnCacheKey (normalizePropertyForMDN p))
            { data := freshMDNData f₁ p, timestamp := t₁ }) p
          = (freshMDNData f₁ p,
            cacheSet c₀ (mdnCacheKey (normalizePropertyForMDN p))
              { data := freshMDNData f₁ p, timestamp := t₁ }) := by
      simp [fetchMDNData, hget, hvalid]
    constructor
    · rw [hc2, hsecond, hc1]
    · intro includeExperimental
      simp only [fetchBrowserSupportFromMDN]
      rw [hc2, hsecond, hc1]
  · intro f now c p e he hexp
    have hinvalid : isCacheValid now e = false := by
      simp only [isCacheValid, decide_eq_false_iff_not, not_lt]
      exact hexp
    have hres :
        fetchMDNData f now c p
          = (freshMDNData f p,
            cacheSet c (mdnCacheKey (normalizePropertyForMDN p))
              { data := freshMDNData f p, timestamp := now }) := by
      simp only [fetchMDNData, freshMDNData, he, hinvalid]
      cases f (normalizePropertyForMDN p) <;> simp
    exact congrArg Prod.fst hres

/-- Concrete data for the C6 witness: a pre-existing cache entry. -/
def c6StaleEntry : CacheEntry :=
  { data := { property := lit "display", browserSupport := defaultExtracted }
  , timestamp := 0 }

theorem C6_witness :
    cacheGet ([] : MDNCache) (mdnCacheKey (normalizePropertyForMDN (lit "display"))) = none
    ∧ (1 : Nat) - 0 < CACHE_TTL
    ∧ (fetchMDNData failingFetch 1
        (fetchMDNData failingFetch 0 [] (lit "display")).2 (lit "display")).1
      = (fetchMDNData failingFetch 0 [] (lit "display")).1
    ∧ (fetchBrowserSupportFromMDN failingFetch 1
        (fetchBrowserSupportFromMDN failingFetch 0 [] (lit "display") false).2
        (lit "display") false).1
      = (fetchBrowserSupportFromMDN failingFetch 0 [] (lit "display") false).1
    ∧ cacheGet [(mdnCacheKey (normalizePropertyForMDN (lit "display")), c6StaleEntry)]
        (mdnCacheKey (normalizePropertyForMDN (lit "display"))) = some c6StaleEntry
    ∧ CACHE_TTL ≤ CACHE_TTL - c6StaleEntry.timestamp
    ∧ (fetchMDNData failingFetch CACHE_TTL
        [(mdnCacheKey (normalizePropertyForMDN (lit "display")), c6StaleEntry)]
        (lit "display")).1
      = freshMDNData failingFetch (lit "display") := by
  have h0 : cacheGet ([] : MDNCache)
      (mdnCacheKey (normalizePropertyForMDN (lit "display"))) = none := rfl
  have hw : (1 : Nat) - 0 < CACHE_TTL := by decide
  have he : cacheGet [(mdnCacheKey (normalizePropertyForMDN (lit "display")), c6StaleEntry)]
      (mdnCacheKey (normalizePropertyForMDN (lit "display"))) = some c6StaleEntry := by decide
  have hexp : CACHE_TTL ≤ CACHE_TTL - c6StaleEntry.timestamp := by decide
  obtain ⟨hdata, hrec⟩ := C6_cache_idempotence_and_ttl.1 failingFetch failingFetch
    (lit "display") 0 1 [] h0 hw
  exact ⟨h0, hw, hdata, hrec false, he, hexp,
    C6_cache_idempotence_and_ttl.2 failingFetch CACHE_TTL _ (lit "display") c6StaleEntry
      he hexp⟩

theorem foldl_add_eq_sum {α : Type} (f : α → Nat) :
    ∀ (l : List α) (n : Nat), l.foldl (fun acc x => acc + f x) n = n + (l.map f).sum
  | [], n => by simp
  | x :: xs, n => by
    rw [List.foldl_cons, foldl_add_eq_sum f xs (n + f x), List.map_cons, List.sum_cons,
      Nat.add_assoc]

theorem mem_scoredFeatures {registry : List CSSFeature} {keywords : List Str}
    {r : CSSFeature × Nat} (h : r ∈ scoredFeatures registry keywords) :
    r.1 ∈ registry ∧ r.2 = featureTotalScore keywords r.1 ∧ 0 < r.2 := by
  unfold scoredFeatures at h
  obtain ⟨f, hf, hr⟩ := List.mem_filterMap.mp h
  split at hr
  case isTrue hpos =>
    injection hr with hr
    subst hr
    exact ⟨hf, rfl, hpos⟩
  case isFalse => cases hr

theorem mem_searchFeatures_scored {registry : List CSSFeature} {keywords : List Str}
    {f : CSSFeature} (h : f ∈ searchFeatures registry keywords) :
    f ∈ registry ∧ 0 < featureTotalScore keywords f := by
  unfold searchFeatures at h
  obtain ⟨r, hr, hfst⟩ := List.mem_map.mp h
  have hr2 : r ∈ scoredFeatures registry keywords :=
    (sortByDesc_perm _ _).mem_iff.mp (List.mem_of_mem_take hr)
  obtain ⟨hreg, hscore, hpos⟩ := mem_scoredFeatures hr2
  subst hfst
  exact ⟨hreg, hscore ▸ hpos⟩

/-- C7 — The keyword-match score of a feature is the sum, over the keyword
    set, of exactly one first-match-wins tier per (feature, keyword) pair
    (100/50/30/20/10, or 0 when nothing matches), plus the fixed semantic
    co-occurrence bonuses; `searchFeatures` excludes zero-score features,
    returns at most 10 features in descending total-score order, and its
    stable sort keeps registry order for equal scores. -/
theorem C7_search_scoring_spec :
    (∀ (keywords : List Str) (feature : CSSFeature),
      featureTotalScore keywords feature
        = (keywords.map (keywordTier feature)).sum + getSemanticScore keywords feature)
    ∧ (∀ (registry : List CSSFeature) (keywords : List Str),
        (searchFeatures registry keywords).length ≤ 10)
    ∧ (∀ (registry : List CSSFeature) (keywords : List Str) (f : CSSFeature),
        f ∈ searchFeatures registry keywords → 0 < featureTotalScore keywords f)
    ∧ (∀ (registry : List CSSFeature) (keywords : List Str),
        (searchFeatures registry keywords).Pairwise
          (fun a b => featureTotalScore keywords b ≤ featureTotalScore keywords a))
    ∧ (∀ (registry : List CSSFeature) (keywords : List Str) (a b : CSSFeature × Nat),
        b.2 ≤ a.2 → List.Sublist [a, b] (scoredFeatures registry keywords) →
        List.Sublist [a, b] (sortByDesc (fun r => r.2) (scoredFeatures registry keywords)))
    := by
  refine ⟨?_, ?_, ?_, ?_, ?_⟩
  · intro keywords feature
    unfold featureTotalScore
    rw [foldl_add_eq_sum (keywordTier feature) keywords 0, Nat.zero_add]
  · intro registry keywords
    unfold searchFeatures
    rw [List.length_map]
    exact List.length_take_le 10 _
  · intro registry keywords f h
    exact (mem_searchFeatures_scored h).2
  · intro registry keywords
    unfold searchFeatures
    rw [List.pairwise_map]
    have hsorted := sortByDesc_sorted (fun r : CSSFeature × Nat => r.2)
      (scoredFeatures registry keywords)
    have htake := hsorted.sublist (List.take_sublist 10 _)
    refine htake.imp_of_mem ?_
    intro a b ha hb hab
    have ha' := mem_scoredFeatures
      ((sortByDesc_perm _ _).mem_iff.mp (List.mem_of_mem_take ha))
    have hb' := mem_scoredFeatures
      ((sortByDesc_perm _ _).mem_iff.mp (List.mem_of_mem_take hb))
    rw [← ha'.2.1, ← hb'.2.1]
    exact hab
  · intro registry keywords a b hab hsub
    exact sortByDesc_pair _ hab hsub

theorem C7_witness :
    mediaQueriesFeature ∈ searchFeatures RESPONSIVE_FEATURES [lit "@media"]
    ∧ 0 < featureTotalScore [lit "@media"] mediaQueriesFeature
    ∧ ((containerQueriesFeature, 30) : CSSFeature × Nat).2
        ≤ ((containerQueriesFeature, 30) : CSSFeature × Nat).2
    ∧ List.Sublist [(containerQueriesFeature, 30), (anchoredContainerQueriesFeature, 30)]
        (scoredFeatures RESPONSIVE_FEATURES [lit "queries"])
    ∧ List.Sublist [(containerQueriesFeature, 30), (anchoredContainerQueriesFeature, 30)]
        (sortByDesc (fun r => r.2) (scoredFeatures RESPONSIVE_FEATURES [lit "queries"])) := by
  have hmem : mediaQueriesFeature ∈ searchFeatures RESPONSIVE_FEATURES [lit "@media"] := by
    decide
  have hsub : List.Sublist [(containerQueriesFeature, 30), (anchoredContainerQueriesFeature, 30)]
      (scoredFeatures RESPONSIVE_FEATURES [lit "queries"]) := by decide
  exact ⟨hmem, C7_search_scoring_spec.2.2.1 RESPONSIVE_FEATURES [lit "@media"] _ hmem,
    le_refl _, hsub,
    C7_search_scoring_spec.2.2.2.2 RESPONSIVE_FEATURES [lit "queries"] _ _ (le_refl _) hsub⟩

/-- The five fixed intent-label → category rules of the relevance score,
    as enumerated by the specification (the `html` label is the spec's
    "html-semantics"). -/
def intentCategoryRules : List (Str × CSSFeatureCategory) :=
  [ (lit "layout", .layout), (lit "animation", .animation), (lit "spacing", .logical)
  , (lit "selectors", .selectors), (lit "html", .html) ]

/-- The relevance formula as the specification words it: intent-category
    bonus summed over the five fixed rules, plus the support bonus
    (5 for excellent, 3 for good), plus the two framework bonuses, all
    multiplied by `1 + confidence`. -/
def relevanceScoreSpec (feature : CSSFeature) (analysis : TaskAnalysis)
    (supportLevel : SupportLevel) : ℚ :=
  ((intentCategoryRules.map (fun rule =>
      if analysis.intent.contains rule.1 && feature.category == rule.2 then (10 : ℚ)
      else 0)).sum
    + (if supportLevel == .excellent then 5 else if supportLevel == .good then 3 else 0)
    + (if analysis.frameworkHints.contains (lit "react")
        && feature.properties.contains (lit "flex") then 3 else 0)
    + (if analysis.frameworkHints.contains (lit "tailwind")
        && feature.properties.contains (lit "grid") then 3 else 0))
  * (1 + analysis.confidence)

theorem filtered_matches_le (lowerDesc : Str) :
    ∀ entries : List IntentEntry,
      ((entries.map (fun e =>
        (e, (e.patterns.filter (fun p => testPattern p lowerDesc)).length))).map
          (fun x => x.2)).sum
        ≤ (entries.map (fun e => e.patterns.length)).sum := by
  intro entries
  induction entries with
  | nil => simp
  | cons e es ih =>
    simp only [List.map_cons, List.sum_cons]
    exact Nat.add_le_add (List.length_filter_le _ _) ih

/-- C8 counterexample — the claim as stated is false on the code: on the
    string path, fallback suggestions carry no relevance score (treated as
    0), while the claimed formula gives a non-zero value (5 for the
    excellent-support media-queries candidate of the `"device"` run). -/
theorem C8_counterexample :
    ((searchMDNForCSSProperties envDefault regResponsive (.inl (lit "device")) .modern
        none none 5).map (fun s => (s.property, s.relevanceScore)))
      = [(lit "@media", none), (lit "container-type", none)]
    ∧ pipelineSupportLevel envDefault mediaQueriesFeature = .excellent
    ∧ calculateRelevanceScore mediaQueriesFeature (analyzeTaskIntent (lit "device") none)
        .excellent = 5
    ∧ ((5 : ℚ) == 0) = false := by
  have hconf : (analyzeTaskIntent (lit "device") none).confidence = 0 := by
    have h0 : (analyzeTaskIntent (lit "device") none).confidence
        = ((0 : ℕ) : ℚ) / ((25 : ℕ) : ℚ) := rfl
    rw [h0]
    norm_num
  have hint : (analyzeTaskIntent (lit "device") none).intent = [] := rfl
  have hfw : (analyzeTaskIntent (lit "device") none).frameworkHints = [] := rfl
  refine ⟨by decide, by decide, ?_, by decide⟩
  simp only [calculateRelevanceScore, hconf, hint, hfw]
  norm_num [List.contains]
  decide

/-- C8 (amended) — Every suggestion accepted by the main category loop
    carries `relevanceScore = (intent-category bonus + support bonus +
    framework bonuses) × (1 + confidence)` exactly as the formula states
    (fallback suggestions carry none, sorted as 0), and the confidence is
    the single global matched/defined pattern ratio, always in [0, 1]. -/
theorem C8_relevance_formula :
    (∀ (env : SuggestionEnv) (analysis : TaskAnalysis) (approach : Approach)
        (pref : Option BaselinePreference) (f : CSSFeature) (s : CSSPropertySuggestion),
        buildMainSuggestion env analysis approach pref f = some s →
        s.relevanceScore
          = some (calculateRelevanceScore f analysis (pipelineSupportLevel env f)))
    ∧ (∀ (f : CSSFeature) (analysis : TaskAnalysis) (supportLevel : SupportLevel),
        calculateRelevanceScore f analysis supportLevel
          = relevanceScoreSpec f analysis supportLevel)
    ∧ (∀ (d : Str) (ctx : Option Str),
        0 ≤ (analyzeTaskIntent d ctx).confidence
        ∧ (analyzeTaskIntent d ctx).confidence ≤ 1) := by
  refine ⟨?_, ?_, ?_⟩
  · intro env analysis approach pref f s h
    simp only [buildMainSuggestion] at h
    split at h
    case isTrue hc =>
      injection h with h2
      subst h2
      rfl
    case isFalse => cases h
  · intro f analysis supportLevel
    simp only [calculateRelevanceScore, relevanceScoreSpec, intentCategoryRules,
      List.map_cons, List.map_nil, List.sum_cons, List.sum_nil]
    cases supportLevel <;> simp <;> exact Or.inl (by ring)
  · intro d ctx
    have hle := filtered_matches_le (lowerStr d) INTENT_PATTERNS
    constructor
    · simp only [analyzeTaskIntent, intentMatches]
      split
      · positivity
      · exact le_refl 0
    · simp only [analyzeTaskIntent, intentMatches]
      split
      case isTrue hpos =>
        rw [div_le_one (by exact_mod_cast hpos)]
        exact_mod_cast hle
      case isFalse => exact zero_le_one

/-- The suggestion built by the main loop for the C8 witness run. -/
def c8WitnessSugg : CSSPropertySuggestion :=
  (buildMainSuggestion envDefault (analyzeTaskIntent (lit "device center") none) .modern
    none mediaQueriesFeature).getD emptySugg

theorem C8_witness :
    buildMainSuggestion envDefault (analyzeTaskIntent (lit "device center") none) .modern
        none mediaQueriesFeature = some c8WitnessSugg
    ∧ c8WitnessSugg.relevanceScore
      = some (calculateRelevanceScore mediaQueriesFeature
          (analyzeTaskIntent (lit "device center") none)
          (pipelineSupportLevel envDefault mediaQueriesFeature))
    ∧ calculateRelevanceScore mediaQueriesFeature
        (analyzeTaskIntent (lit "device center") none) .excellent
      = relevanceScoreSpec mediaQueriesFeature
          (analyzeTaskIntent (lit "device center") none) .excellent
    ∧ 0 ≤ (analyzeTaskIntent (lit "device center") none).confidence
    ∧ (analyzeTaskIntent (lit "device center") none).confidence ≤ 1 := by
  have hb : buildMainSuggestion envDefault (analyzeTaskIntent (lit "device center") none)
      .modern none mediaQueriesFeature = some c8WitnessSugg := rfl
  obtain ⟨hlo, hhi⟩ := C8_relevance_formula.2.2 (lit "device center") none
  exact ⟨hb, C8_relevance_formula.1 envDefault _ .modern none mediaQueriesFeature _ hb,
    C8_relevance_formula.2.1 mediaQueriesFeature _ .excellent, hlo, hhi⟩

/-- C9 — The entry point performs no runtime validation of `description`:
    the only test is `Array.isArray`, and a value that is neither a string
    nor an array flows into the string path and fails with an incidental
    TypeError (raised at `description.toLowerCase()`), never with a
    descriptive invalid-argument rejection. -/
theorem C9_no_input_validation :
    ∀ (env : SuggestionEnv) (registry : FeatureRegistry) (approach : Approach)
      (projectContext : Option Str) (baselinePreference : Option Str)
      (maxSuggestions : Nat),
      searchMDNForCSSPropertiesJS env registry .malformed approach projectContext
          baselinePreference maxSuggestions
        = .typeError (lit "description.toLowerCase is not a function") := by
  intro env registry approach projectContext baselinePreference maxSuggestions
  rfl

theorem gIf_subset {α : Type} {c : Bool} {l s : List α} (h : l ⊆ s) : gIf c l ⊆ s :=
  fun _ hx => h (mem_gIf hx)

/-- Every string literal that `extractLegacyKeywords` can ever push: the
    direct CSS property triggers plus all conditional bundles. -/
def keywordLiteralPool : List Str :=
  [ lit "height", lit "width", lit "position", lit "display", lit "flex", lit "grid"
  , lit "margin", lit "padding", lit "border", lit "background", lit "color", lit "font"
  , lit "text", lit "transform", lit "transition", lit "animation"
  , lit "100vh", lit "100dvh", lit "dvh", lit "svh", lit "lvh", lit "block-size"
  , lit "min-height", lit "mobile-viewport", lit "browser-ui", lit "@media"
  , lit "viewport-height", lit "header", lit "sticky", lit "fixed"
  , lit "center", lit "align", lit "justify-content", lit "align-items"
  , lit "scroll-snap-type", lit "overflow-inline", lit "scroll-behavior"
  , lit "::scroll-marker", lit "::scroll-button"
  , lit "light-dark", lit "color-scheme", lit "prefers-color-scheme"
  , lit "form", lit ":user-valid", lit ":user-invalid", lit ":invalid", lit ":valid"
  , lit "dialog", lit ":target", lit "backdrop-filter"
  , lit "nav", lit "menu", lit ":checked"
  , lit "@keyframes", lit "scroll-timeline", lit "animation-timeline"
  , lit "container", lit "clamp", lit "min", lit "max"
  , lit "100%", lit "vh", lit "section", lit "viewport" ]

theorem flatten_subset_of {α : Type} {s : List α} :
    ∀ {L : List (List α)}, (∀ l ∈ L, l ⊆ s) → L.flatten ⊆ s := by
  intro L
  induction L with
  | nil => intro _; simp
  | cons c cs ih =>
    intro h
    rw [List.flatten_cons]
    exact List.append_subset.mpr
      ⟨h c (List.mem_cons_self _ _), ih (fun l hl => h l (List.mem_cons_of_mem _ hl))⟩

theorem legacyKeywordChunks_subset (d : Str) :
    legacyKeywordChunks d ⊆ keywordLiteralPool := by
  simp only [legacyKeywordChunks]
  refine flatten_subset_of ?_
  intro l hl
  simp only [List.mem_cons, List.not_mem_nil, or_false] at hl
  rcases hl with rfl|rfl|rfl|rfl|rfl|rfl|rfl|rfl|rfl|rfl|rfl|rfl|rfl|rfl|rfl
  case inl =>
    exact fun x hx =>
      (by decide : cssPropertyTriggers ⊆ keywordLiteralPool) (List.mem_filter.mp hx).1
  all_goals first
    | exact gIf_subset (by decide)
    | exact gIf_subset (List.append_subset.mpr ⟨by decide, gIf_subset (by decide)⟩)
    | exact gIf_subset (List.append_subset.mpr
        ⟨List.append_subset.mpr ⟨by decide, gIf_subset (by decide)⟩,
         gIf_subset (by decide)⟩)

/-- C10 — Intent analysis never emits the tokens `carousel` or `slider`
    into the keyword set of a plain-string description (only derived
    keywords such as `scroll-snap-type` and `::scroll-marker`), and the
    joined keyword text that `getSemanticScore` matches never contains
    either token, so the carousel/slider semantic co-occurrence bonuses
    (+200 modern carousel, +150 legacy scroll-snap) cannot fire on the
    string path — only in legacy array mode where the caller passes the
    literal keywords. -/
theorem C10_no_carousel_tokens_on_string_path :
    ∀ (d : Str) (ctx : Option Str),
      ((analyzeTaskIntent d ctx).keywords.contains (lit "carousel")) = false
      ∧ ((analyzeTaskIntent d ctx).keywords.contains (lit "slider")) = false
      ∧ includesB (lit "carousel")
          (semKeywordText (analyzeTaskIntent d ctx).keywords) = false
      ∧ includesB (lit "slider")
          (semKeywordText (analyzeTaskIntent d ctx).keywords) = false := by
  intro d ctx
  have hk : (analyzeTaskIntent d ctx).keywords
      = dedupFirst (extractLegacyKeywords d) := rfl
  have hsub : (analyzeTaskIntent d ctx).keywords ⊆ keywordLiteralPool := by
    rw [hk]
    intro x hx
    have hx1 : x ∈ extractLegacyKeywords d := dedupFirst_subset _ hx
    rw [extractLegacyKeywords] at hx1
    exact legacyKeywordChunks_subset d (dedupFirst_subset _ hx1)
  have hinfix : ∀ t : Str, ' ' ∉ t → t ≠ [] →
      (∀ y ∈ keywordLiteralPool, ¬ List.IsInfix t (lowerStr y)) →
      includesB t (semKeywordText (analyzeTaskIntent d ctx).keywords) = false := by
    intro t hsp hne hall
    have hjoin : semKeywordText (analyzeTaskIntent d ctx).keywords
        = joinSp ((analyzeTaskIntent d ctx).keywords.map lowerStr) := by
      unfold semKeywordText
      exact lowerStr_joinSp _
    rw [hjoin]
    simp only [includesB, decide_eq_false_iff_not]
    intro hinf
    obtain ⟨y, hy, hyi⟩ := infix_joinSp hsp hne hinf
    obtain ⟨x, hxmem, rfl⟩ := List.mem_map.mp hy
    exact hall x (hsub hxmem) hyi
  have hnc : ∀ t : Str, t ∉ keywordLiteralPool →
      ((analyzeTaskIntent d ctx).keywords.contains t) = false := by
    intro t hpool
    rw [← Bool.not_eq_true]
    intro hc
    exact hpool (hsub (List.mem_of_elem_eq_true hc))
  refine ⟨?_, ?_, ?_, ?_⟩
  · exact hnc _ (by decide)
  · exact hnc _ (by decide)
  · exact hinfix _ (by decide) (by decide) (by decide)
  · exact hinfix _ (by decide) (by decide) (by decide)

end CssFirst
